import Mathlib

/-!
Verification of biasmeter-frontend: time-series buffers and smoothing.

A shallow embedding of the buffer management, smoothing and alert code of
`src/analytics.js` and `src/realtime.js`, and of the analyze handler and the
score bands of `src/app.js`.

Modelling conventions:
* JavaScript numbers are modelled as exact rationals (`ℚ`); the rounding of
  double arithmetic, `NaN` and infinities are outside the model. Sums, means
  and products are therefore exact here, and only properties that do not turn
  on the rounding of such results are stated about them.
* `Date` values are modelled by their millisecond time value (`Int`).
* Every call of `Math.random()` inside one tick is an input: `rnd k` is the
  result of the `k`-th call (counting from 0) made during that tick.
* Every reading of the clock (`new Date()`, `Date.now()`) is an input.
* Chart labels, DOM class names, sounds, the time text of an alert and the text
  nodes of the live page that only display the current sample (`currentBias`,
  `maleRate`, `femaleRate`, the trend display) are presentation only and are
  not part of the state.
-/

namespace BiasMeter

/-! ## analytics.js: `applySmoothing` -/

/-- One iteration of the `for` loop of `applySmoothing`:
`smoothed.push(smoothed[i-1] * (1 - factor) + data[i] * factor)`. -/
def smoothingStep (data : List ℚ) (factor : ℚ) (smoothed : List ℚ) (i : Nat) : List ℚ :=
  smoothed ++ [smoothed.getD (i - 1) 0 * (1 - factor) + data.getD i 0 * factor]

/-- The function `applySmoothing(data, factor)` of analytics.js: the empty array for
empty data, otherwise `smoothed` starts as `[data[0]]` and the loop runs for
`i = 1, ..., data.length - 1`. The products and the sum of each step are exact; the code
rounds each of them to a double. -/
def applySmoothing (data : List ℚ) (factor : ℚ) : List ℚ :=
  if data.length = 0 then []
  else (List.range' 1 (data.length - 1)).foldl (smoothingStep data factor) [data.getD 0 0]

/-! ## Number formatting -/

/-- The method `Number.prototype.toFixed(f)` on an exact value: the decimal numeral of
the integer `n` nearest to `|x| * 10^f` (the larger one on a tie), with a point before
the last `f` digits and a leading minus sign when `x < 0`. -/
def toFixed (x : ℚ) (f : Nat) : String :=
  let n : Nat := Int.toNat (Int.floor (|x| * (10 : ℚ) ^ f + 1 / 2))
  let m : String := toString n
  let padded : String := if m.length ≤ f then String.mk (List.replicate (f + 1 - m.length) '0') ++ m else m
  let k : Nat := padded.length - f
  (if x < 0 then "-" else "") ++ padded.take k ++ (if f = 0 then "" else "." ++ padded.drop k)

/-! ## analytics.js: the time-windowed buffer -/

/-- One element of `analyticsData`: `timestamp` is the time value of the `Date` in ms. -/
structure Sample where
  timestamp : Int
  value : ℚ
  maleRate : ℚ
  femaleRate : ℚ
deriving DecidableEq, Repr

/-- The text nodes written by `updateStats`. -/
structure StatsText where
  avgBias : String
  currentBiasDetailed : String
  minBias : String
  maxBias : String
deriving DecidableEq, Repr

/-- The module-level variables of analytics.js together with the chart datasets and the
DOM text nodes its functions write. -/
structure AnalyticsState where
  analyticsData : List Sample
  isPaused : Bool
  currentTimeRange : Int
  smoothingLevel : Int
  chartValues : List ℚ
  trendLine : List ℚ
  stats : StatsText
  alertSummary : String
deriving DecidableEq, Repr

/-- The state after the module is loaded: `analyticsData = []`, `isPaused = false`,
`currentTimeRange = 30`, `smoothingLevel = 50`, empty chart datasets. The initial text of
the DOM nodes comes from the page markup and is modelled as empty. -/
def AnalyticsState.initial : AnalyticsState :=
  { analyticsData := [], isPaused := false, currentTimeRange := 30, smoothingLevel := 50,
    chartValues := [], trendLine := [],
    stats := { avgBias := "", currentBiasDetailed := "", minBias := "", maxBias := "" },
    alertSummary := "" }

/-- The expression `analyticsData.length > 0 ? analyticsData[analyticsData.length - 1].value : 85`. -/
def lastValueOr (data : List Sample) (dflt : ℚ) : ℚ :=
  match data.getLast? with
  | some p => p.value
  | none => dflt

/-- The value generator of `updateAnalyticsData` (lines 255-268): returns the new value and
the number of `Math.random()` calls consumed. -/
def generateValue (lastValue : ℚ) (rnd : Nat → ℚ) : ℚ × Nat :=
  if rnd 0 > 0.8 then
    (max 60 (lastValue - (15 + rnd 1 * 20)), 2)
  else if rnd 1 > 0.9 then
    (min 100 (lastValue + (15 + rnd 2 * 20)), 3)
  else
    (min 100 (max 60 (lastValue + (rnd 2 * 6 - 3))), 3)

/-- The filter shared by `updateAnalyticsData` and `updateChartTimeRange`:
`cutoffTime = new Date(Date.now() - currentTimeRange * 1000)` and
`analyticsData.filter(point => point.timestamp >= cutoffTime)`. -/
def filterWindow (data : List Sample) (now : Int) (range : Int) : List Sample :=
  data.filter (fun point => decide (point.timestamp ≥ now - range * 1000))

/-- The function `updateTrendLine`: returns early on an empty buffer, otherwise stores
`applySmoothing(values, smoothingLevel / 100)` in the trend dataset. -/
def updateTrendLine (s : AnalyticsState) : AnalyticsState :=
  if s.analyticsData.length = 0 then s
  else { s with trendLine := applySmoothing (s.analyticsData.map (fun point => point.value))
                               ((s.smoothingLevel : ℚ) / 100) }

/-- The function `updateChart` (labels apart): stores the values in the main dataset and
updates the trend line. -/
def updateChart (s : AnalyticsState) : AnalyticsState :=
  updateTrendLine { s with chartValues := s.analyticsData.map (fun point => point.value) }

/-- The expression `values.reduce((a, b) => a + b, 0)`, as an exact sum; the code rounds
each addition to a double. -/
def sumValues (values : List ℚ) : ℚ :=
  values.foldl (fun a b => a + b) 0

/-- The function `Math.min(...values)` on a non-empty array (`0` stands in for the
unused empty case). -/
def minOf (values : List ℚ) : ℚ :=
  match values with
  | [] => 0
  | v :: vs => vs.foldl min v

/-- The function `Math.max(...values)` on a non-empty array (`0` stands in for the
unused empty case). -/
def maxOf (values : List ℚ) : ℚ :=
  match values with
  | [] => 0
  | v :: vs => vs.foldl max v

/-- The function `updateStats`: returns early on an empty buffer, otherwise writes the
four statistics with one decimal. The mean behind `avgBias` is the exact mean; the code's
mean is the rounded double sum divided by the length. -/
def updateStats (s : AnalyticsState) : AnalyticsState :=
  if s.analyticsData.length = 0 then s
  else
    let values := s.analyticsData.map (fun point => point.value)
    let currentValue := values.getD (values.length - 1) 0
    let avgValue := sumValues values / values.length
    let minValue := minOf values
    let maxValue := maxOf values
    { s with stats :=
        { avgBias := toFixed (100 - avgValue) 1
          currentBiasDetailed := toFixed (100 - currentValue) 1
          minBias := toFixed (100 - minValue) 1
          maxBias := toFixed (100 - maxValue) 1 } }

/-- The function `analyticsData.slice(-5)`: the last five elements (all of them when there
are fewer). -/
def sliceLast5 (data : List Sample) : List Sample :=
  data.drop (data.length - 5)

/-- The function `checkForAlerts` of analytics.js; `gate` is the result of the one
`Math.random()` call, which is made only when the first two conditions fail and
`avgRecent < 75`. Here `avgRecent` is the exact mean; the code's `avgRecent` is the rounded
double sum divided by 5, which can fall on the other side of 75 at the boundary. -/
def checkForAlerts (s : AnalyticsState) (gate : ℚ) : AnalyticsState :=
  if s.analyticsData.length < 5 then s
  else
    let recentValues := (sliceLast5 s.analyticsData).map (fun point => point.value)
    let currentValue := recentValues.getD (recentValues.length - 1) 0
    let avgRecent := sumValues recentValues / recentValues.length
    let alertText :=
      if currentValue < 60 then "⚠️ CRITICAL: Fairness score below 60%"
      else if currentValue < 70 then "⚠️ WARNING: Fairness score below 70%"
      else if avgRecent < 75 ∧ gate > 0.7 then "⚠️ MONITOR: Average score trending low"
      else "No alerts in current time range"
    { s with alertSummary := alertText }

/-- The sample pushed by a tick (lines 271-276): `now` is the reading of `new Date()`. -/
def newSample (data : List Sample) (now : Int) (rnd : Nat → ℚ) : Sample :=
  let g := generateValue (lastValueOr data 85) rnd
  { timestamp := now
    value := g.1
    maleRate := 40 + (g.1 - 70) / 30 * 20 + rnd g.2 * 10
    femaleRate := 60 - (g.1 - 70) / 30 * 20 + rnd (g.2 + 1) * 10 }

/-- The push-and-filter step of a tick (lines 270-280): `tPush` is the reading of
`new Date()` for the sample, `tCut` the later reading of `Date.now()` for the cutoff. -/
def pushAndFilter (s : AnalyticsState) (tPush tCut : Int) (rnd : Nat → ℚ) : List Sample :=
  filterWindow (s.analyticsData ++ [newSample s.analyticsData tPush rnd]) tCut s.currentTimeRange

/-- The function `updateAnalyticsData`, one tick of the periodic timer. -/
def updateAnalyticsData (s : AnalyticsState) (tPush tCut : Int) (rnd : Nat → ℚ) : AnalyticsState :=
  if s.isPaused then s
  else
    let k := (generateValue (lastValueOr s.analyticsData 85) rnd).2 + 2
    checkForAlerts
      (updateStats (updateChart { s with analyticsData := pushAndFilter s tPush tCut rnd }))
      (rnd k)

/-- The function `updateChartTimeRange`; `now` is the reading of `Date.now()`. -/
def updateChartTimeRange (s : AnalyticsState) (now : Int) : AnalyticsState :=
  updateStats (updateChart
    { s with analyticsData := filterWindow s.analyticsData now s.currentTimeRange })

/-- The click handler of a time-range button (lines 210-216): sets `currentTimeRange` to
the parsed `data-range` and calls `updateChartTimeRange`. -/
def timeRangeClick (s : AnalyticsState) (range : Int) (now : Int) : AnalyticsState :=
  updateChartTimeRange { s with currentTimeRange := range } now

/-- The pause button and the space key (lines 203-208, 234-236): `isPaused = !isPaused`. -/
def togglePause (s : AnalyticsState) : AnalyticsState :=
  { s with isPaused := !s.isPaused }

/-- The input handler of the smoothing slider (lines 221-224). -/
def smoothingInput (s : AnalyticsState) (level : Int) : AnalyticsState :=
  updateTrendLine { s with smoothingLevel := level }

/-- What can happen on the analytics page, with the clock readings and random draws of
each handler as data. -/
inductive AnalyticsEvent where
  | tick (tPush tCut : Int) (rnd : Nat → ℚ)
  | rangeClick (range : Int) (now : Int)
  | pauseClick
  | slider (level : Int)

/-- The effect of one event on the state. -/
def AnalyticsEvent.apply (s : AnalyticsState) : AnalyticsEvent → AnalyticsState
  | .tick tPush tCut rnd => updateAnalyticsData s tPush tCut rnd
  | .rangeClick range now => timeRangeClick s range now
  | .pauseClick => togglePause s
  | .slider level => smoothingInput s level

/-- The clock readings made while handling an event, in program order. -/
def AnalyticsEvent.clock : AnalyticsEvent → List Int
  | .tick tPush tCut _ => [tPush, tCut]
  | .rangeClick _ now => [now]
  | .pauseClick => []
  | .slider _ => []

/-- The state after a sequence of events. -/
def runAnalytics (s : AnalyticsState) (evs : List AnalyticsEvent) : AnalyticsState :=
  evs.foldl AnalyticsEvent.apply s

/-- The clock never goes backwards over a sequence of events: the readings, in program
order, are non-decreasing. -/
def ClockMonotone (evs : List AnalyticsEvent) : Prop :=
  (evs.flatMap AnalyticsEvent.clock).Pairwise (fun a b => a ≤ b)

/-- The buffer is sorted ascending by timestamp. -/
def SortedByTime (data : List Sample) : Prop :=
  data.Pairwise (fun a b => a.timestamp ≤ b.timestamp)

/-! ## realtime.js: the count-windowed buffer and the alert list -/

/-- The constant `MAX_DATA_POINTS` of realtime.js. -/
def MAX_DATA_POINTS : Nat := 15

/-- The `level` argument of `addAlert`. -/
inductive Level where
  | high
  | medium
  | low
deriving DecidableEq, Repr

/-- One alert element created by `addAlert` (the time text apart). -/
structure AlertItem where
  title : String
  message : String
  level : Level
deriving DecidableEq, Repr

/-- One child node of the `alertList` element: an alert element, or a node that is not an
element (a whitespace text node or a comment of the page markup). -/
inductive ChildNode where
  | alert (item : AlertItem)
  | text
deriving DecidableEq, Repr

/-- Whether a child node is an element, and so counted by `alertList.children`. -/
def ChildNode.isElement : ChildNode → Bool
  | .alert _ => true
  | .text => false

/-- The value of `alertList.children.length`: the number of element children. -/
def childrenLength (nodes : List ChildNode) : Nat :=
  (nodes.filter ChildNode.isElement).length

/-- The module-level variables of realtime.js together with the child nodes of the
`alertList` element (first child first) and the number shown in the `alertCount` element. -/
structure LiveState where
  isMonitoring : Bool
  liveDataPoints : List ℚ
  alertList : List ChildNode
  alertCount : Int
deriving DecidableEq, Repr

/-- The function `addAlert` (lines 354-360), expiry timers apart: the new element is inserted
before `firstChild`, and when `children.length` (elements only) exceeds 10 the node
`lastChild` (of any kind) is removed. -/
def addAlert (alerts : List ChildNode) (title message : String) (level : Level) : List ChildNode :=
  let inserted := ChildNode.alert { title := title, message := message, level := level } :: alerts
  if childrenLength inserted > 10 then inserted.dropLast else inserted

/-- The push-then-shift step of `updateLiveData` (lines 229-233). -/
def pushShift (points : List ℚ) (newBias : ℚ) : List ℚ :=
  let pushed := points ++ [newBias]
  if pushed.length > MAX_DATA_POINTS then pushed.tail else pushed

/-- The expression `liveDataPoints.length > 0 ? liveDataPoints[liveDataPoints.length - 1] : 100`. -/
def lastPointOr (points : List ℚ) (dflt : ℚ) : ℚ :=
  match points.getLast? with
  | some v => v
  | none => dflt

/-- The value generator of `updateLiveData` (lines 201-214): returns the new value and the
number of `Math.random()` calls consumed. -/
def generateBias (lastValue : ℚ) (rnd : Nat → ℚ) : ℚ × Nat :=
  if rnd 0 > 0.7 then
    (max 60 (lastValue - (10 + rnd 1 * 20)), 2)
  else if rnd 1 > 0.8 then
    (min 100 (lastValue + (10 + rnd 2 * 20)), 3)
  else
    (min 100 (max 60 (lastValue + (rnd 2 * 10 - 5))), 3)

/-- The function `checkForAlerts(fairnessScore, biasScore)` of realtime.js; the random
draws are `rnd k, rnd (k+1), ...`, one being consumed each time a threshold test passes
and its gate is evaluated. -/
def liveCheckForAlerts (s : LiveState) (fairnessScore : ℚ) (rnd : Nat → ℚ) (k : Nat) : LiveState :=
  if fairnessScore < 65 ∧ rnd k > 0.5 then
    { s with
      alertList := addAlert s.alertList "Critical Bias Detected"
        ("Fairness score dropped to " ++ toFixed fairnessScore 1 ++ "%. Immediate action required.")
        Level.high
      alertCount := s.alertCount + 1 }
  else
    let k1 := if fairnessScore < 65 then k + 1 else k
    if fairnessScore < 75 ∧ rnd k1 > 0.7 then
      { s with
        alertList := addAlert s.alertList "High Bias Warning"
          ("Fairness score is " ++ toFixed fairnessScore 1 ++ "%. Monitor closely.")
          Level.medium
        alertCount := s.alertCount + 1 }
    else
      let k2 := if fairnessScore < 75 then k1 + 1 else k1
      if fairnessScore > 95 ∧ rnd k2 > 0.8 then
        { s with
          alertList := addAlert s.alertList "Excellent Fairness"
            ("Fairness score improved to " ++ toFixed fairnessScore 1 ++ "%. Good job!")
            Level.low }
      else s

/-- The function `updateLiveData`, one tick of the live monitor. -/
def updateLiveData (s : LiveState) (rnd : Nat → ℚ) : LiveState :=
  if !s.isMonitoring then s
  else
    let g := generateBias (lastPointOr s.liveDataPoints 100) rnd
    let newBias := g.1
    liveCheckForAlerts { s with liveDataPoints := pushShift s.liveDataPoints newBias }
      newBias rnd (g.2 + 2)

/-- The synchronous part of `startMonitoring` (lines 144-146). -/
def startMonitoring (s : LiveState) : LiveState :=
  if s.isMonitoring then s else { s with isMonitoring := true }

/-- The connect step of `startMonitoring`, the timeout callback of lines 158-175: clears
the buffer and announces the connection. -/
def connectStep (s : LiveState) : LiveState :=
  { s with
    liveDataPoints := []
    alertList := addAlert s.alertList "System Connected"
      "Real-time monitoring started successfully" Level.low }

/-- The function `stopMonitoring`. -/
def stopMonitoring (s : LiveState) : LiveState :=
  if !s.isMonitoring then s
  else
    { s with
      isMonitoring := false
      alertList := addAlert s.alertList "Monitoring Stopped"
        "Real-time monitoring has been stopped" Level.low }

/-- The function `testAlert`. -/
def testAlert (s : LiveState) : LiveState :=
  { s with
    alertList := addAlert s.alertList "Test Alert"
      "This is a test alert to verify the notification system is working correctly."
      Level.medium
    alertCount := s.alertCount + 1 }

/-- The buffer after the push-then-shift step has been applied to each value in turn. -/
def pushAll (points : List ℚ) (values : List ℚ) : List ℚ :=
  values.foldl pushShift points

/-- The samples pushed while handling an event in state `s`: the new sample of an unpaused
tick, nothing otherwise. -/
def AnalyticsEvent.pushed (s : AnalyticsState) : AnalyticsEvent → List Sample
  | .tick tPush _ rnd => if s.isPaused then [] else [newSample s.analyticsData tPush rnd]
  | .rangeClick _ _ => []
  | .pauseClick => []
  | .slider _ => []

/-- All samples pushed along a sequence of events from state `s`, in push order. -/
def pushedAlong (s : AnalyticsState) : List AnalyticsEvent → List Sample
  | [] => []
  | e :: es => e.pushed s ++ pushedAlong (e.apply s) es

/-- No sample of the buffer is later than a clock reading still to come. -/
def NotAfter (data : List Sample) (readings : List Int) : Prop :=
  ∀ p ∈ data, ∀ t ∈ readings, p.timestamp ≤ t

/-- A page state with two retained samples, taken two seconds apart, and the default range. -/
def twoSampleState : AnalyticsState :=
  { AnalyticsState.initial with
    analyticsData := [⟨0, 85, 50, 50⟩, ⟨2000, 86, 51, 49⟩]
    chartValues := [85, 86]
    trendLine := [85, 171 / 2] }

/-- A live-monitor state with two buffered values. -/
def twoPointState : LiveState :=
  { isMonitoring := true, liveDataPoints := [90, 91], alertList := [], alertCount := 0 }

/-! ## Runs of the live monitor, alert sequences, value ranges -/

/-- The alert list after `addAlert` has been called for each item in turn (oldest call
first). -/
def addAlerts (alerts : List ChildNode) (items : List AlertItem) : List ChildNode :=
  items.foldl (fun l a => addAlert l a.title a.message a.level) alerts

/-- What can happen on the live page: the two halves of `startMonitoring`, a timer tick with
its random draws, `stopMonitoring` and `testAlert`. -/
inductive LiveEvent where
  | start
  | connect
  | tick (rnd : Nat → ℚ)
  | stop
  | test

/-- The effect of one live event on the state. -/
def LiveEvent.apply (s : LiveState) : LiveEvent → LiveState
  | .start => startMonitoring s
  | .connect => connectStep s
  | .tick rnd => updateLiveData s rnd
  | .stop => stopMonitoring s
  | .test => testAlert s

/-- The state of the live page after a sequence of events. -/
def runLive (s : LiveState) (evs : List LiveEvent) : LiveState :=
  evs.foldl LiveEvent.apply s

/-- The state after a sequence of timer ticks, one list entry per tick. -/
def runTicks (s : LiveState) (rnds : List (Nat → ℚ)) : LiveState :=
  rnds.foldl updateLiveData s

/-- The values generated by a sequence of timer ticks from state `s`, in order: one per tick
made while monitoring. -/
def liveGenerated (s : LiveState) : List (Nat → ℚ) → List ℚ
  | [] => []
  | rnd :: rnds =>
    (if s.isMonitoring then [(generateBias (lastPointOr s.liveDataPoints 100) rnd).1] else [])
      ++ liveGenerated (updateLiveData s rnd) rnds

/-- Every `Math.random()` result lies in `[0, 1)`. -/
def UnitRandom (rnd : Nat → ℚ) : Prop :=
  ∀ k, 0 ≤ rnd k ∧ rnd k < 1

/-- The random draws of an analytics event lie in `[0, 1)`. -/
def AnalyticsEvent.unitRandom : AnalyticsEvent → Prop
  | .tick _ _ rnd => UnitRandom rnd
  | .rangeClick _ _ => True
  | .pauseClick => True
  | .slider _ => True

/-- The random draws of a live event lie in `[0, 1)`. -/
def LiveEvent.unitRandom : LiveEvent → Prop
  | .tick rnd => UnitRandom rnd
  | .start => True
  | .connect => True
  | .stop => True
  | .test => True

/-- An event is a timer tick. -/
def AnalyticsEvent.isTick : AnalyticsEvent → Bool
  | .tick _ _ _ => true
  | .rangeClick _ _ => false
  | .pauseClick => false
  | .slider _ => false

/-- The live state after one call of `addAlert`, the displayed alert count being incremented
when `counted` (the `currentAlerts++` of the high and medium rules). -/
def withAlert (s : LiveState) (title message : String) (level : Level) (counted : Bool) :
    LiveState :=
  { s with
    alertList := addAlert s.alertList title message level
    alertCount := if counted then s.alertCount + 1 else s.alertCount }

/-- The message of the 'Critical Bias Detected' alert. -/
def criticalMessage (fairnessScore : ℚ) : String :=
  "Fairness score dropped to " ++ toFixed fairnessScore 1 ++ "%. Immediate action required."

/-- The message of the 'High Bias Warning' alert. -/
def warningMessage (fairnessScore : ℚ) : String :=
  "Fairness score is " ++ toFixed fairnessScore 1 ++ "%. Monitor closely."

/-- The message of the 'Excellent Fairness' alert. -/
def excellentMessage (fairnessScore : ℚ) : String :=
  "Fairness score improved to " ++ toFixed fairnessScore 1 ++ "%. Good job!"

/-- The text `toFixed` produces for a non-negative value whose rounded scaled integer is `n`:
the digits of `n`, padded with zeros to more than `f` digits, with a point before the last
`f` of them. -/
def fixedDigits (n f : Nat) : String :=
  let m : String := toString n
  let padded : String := if m.length ≤ f then String.mk (List.replicate (f + 1 - m.length) '0') ++ m else m
  let k : Nat := padded.length - f
  padded.take k ++ (if f = 0 then "" else "." ++ padded.drop k)

/-! ## analytics.js: CSV export -/

/-- The header line written by `downloadCSV`. -/
def csvHeader : String :=
  "Timestamp,Fairness Score (%),Bias Score (%),Male Rate (%),Female Rate (%)"

/-- The `row` of `downloadCSV` (lines 389-395): five fields joined by commas. The built-in
`Date.prototype.toISOString` is taken as the parameter `toISOString`. -/
def csvRow (toISOString : Int → String) (point : Sample) : String :=
  String.intercalate ","
    [toISOString point.timestamp, toFixed point.value 2, toFixed (100 - point.value) 2,
      toFixed point.maleRate 2, toFixed point.femaleRate 2]

/-- The text `csvContent` built by `downloadCSV` (lines 385-397), before `encodeURI`. -/
def csvContent (toISOString : Int → String) (data : List Sample) : String :=
  data.foldl (fun csv point => csv ++ (csvRow toISOString point ++ "\n"))
    ("data:text/csv;charset=utf-8," ++ (csvHeader ++ "\n"))

/-! ## app.js: the analyze handler and the score bands -/

/-- The element created by `showNotification(message, type)`. -/
structure Notification where
  message : String
  type : String
deriving DecidableEq, Repr

/-- The part of the main page that `handleAnalyzeClick` reads and writes: the module variable
`isAnalyzing`, the number of files in the file input, the visibility of the loading
animation and of the results, the state of the analyze button, the requests issued with
`fetch` (by URL), the notification on screen and the score text nodes. -/
structure AppState where
  isAnalyzing : Bool
  selectedFiles : Nat
  loadingShown : Bool
  analyzeDisabled : Bool
  requests : List String
  notification : Option Notification
  resultsShown : Bool
  scoreValue : String
  scoreText : String
  scoreBackground : String
deriving DecidableEq, Repr

/-- The function `showNotification`: existing notifications are removed and the new one is
shown (its removal timer apart). -/
def showNotification (s : AppState) (message type : String) : AppState :=
  { s with notification := some ⟨message, type⟩ }

/-- The function `getBiasStatus`. -/
def getBiasStatus (score : ℚ) : String :=
  if score < 15 then "Low Bias"
  else if score < 30 then "Moderate Bias"
  else if score < 45 then "High Bias"
  else "Critical Bias"

/-- The function `getRiskLevel`. -/
def getRiskLevel (score : ℚ) : String :=
  if score < 15 then "Low"
  else if score < 30 then "Medium"
  else if score < 45 then "High"
  else "Critical"

/-- The function `getScoreColor`. -/
def getScoreColor (score : ℚ) : String :=
  if score < 15 then "linear-gradient(135deg, #2ecc71, #27ae60)"
  else if score < 30 then "linear-gradient(135deg, #f39c12, #d35400)"
  else if score < 45 then "linear-gradient(135deg, #e74c3c, #c0392b)"
  else "linear-gradient(135deg, #8b0000, #ff0000)"

/-- The risk class `updateMetrics` gives the 'Risk Level' card (lines 485-488). -/
def riskClassOfLevel (value : String) : String :=
  if value = "High" ∨ value = "Critical" then "risk-high"
  else if value = "Medium" then "risk-medium"
  else "risk-low"

/-- The risk class `updateMetrics` gives the 'Bias Score' card (lines 489-492). -/
def riskClassOfBiasScore (value : ℚ) : String :=
  if value > 30 then "risk-high"
  else if value > 15 then "risk-medium"
  else "risk-low"

/-- The fields of the analysis response that the modelled part of `displayResults` reads; an
absent or falsy field is `none`. -/
structure AnalysisResult where
  biasScore : Option ℚ
  status : Option String
  message : Option String
deriving DecidableEq, Repr

/-- How the request of `handleAnalyzeClick` settles: a response with `response.ok`, a response
without it, or a rejected `fetch` or `json()` call. -/
inductive FetchOutcome where
  | ok (result : AnalysisResult)
  | notOk (result : AnalysisResult)
  | failed
deriving DecidableEq, Repr

/-- The score part of `displayResults` (lines 334-344); the chart, the metrics grid and the
recommendations are not part of the state. -/
def displayResults (s : AppState) (result : AnalysisResult) : AppState :=
  let biasScore := result.biasScore.getD 0
  { s with
    scoreValue := toFixed biasScore 1
    scoreText := result.status.getD (getBiasStatus biasScore)
    scoreBackground := getScoreColor biasScore }

/-- The function `handleAnalyzeClick` up to its `await fetch(...)` (lines 254-282). -/
def handleAnalyzeClick (s : AppState) : AppState :=
  if s.isAnalyzing then s
  else if s.selectedFiles = 0 then
    showNotification s "Please select a CSV file first!" "warning"
  else
    { s with
      isAnalyzing := true
      loadingShown := true
      analyzeDisabled := true
      requests := s.requests ++ ["/api/bias/analyze"] }

/-- The rest of `handleAnalyzeClick`, run when the request settles (lines 284-315). -/
def analyzeSettled (s : AppState) (outcome : FetchOutcome) : AppState :=
  let idle := { s with loadingShown := false, analyzeDisabled := false }
  let shown :=
    match outcome with
    | .ok result =>
      showNotification (displayResults { idle with resultsShown := true } result)
        "Analysis completed successfully!" "success"
    | .notOk result =>
      showNotification idle (result.message.getD "Error analyzing file") "error"
    | .failed =>
      showNotification idle "Error analyzing file. Please try again." "error"
  { shown with isAnalyzing := false }

/-- The main page after loading: nothing selected, nothing in progress. The initial text of
the score nodes comes from the page markup and is modelled as empty. -/
def AppState.initial : AppState :=
  { isAnalyzing := false, selectedFiles := 0, loadingShown := false, analyzeDisabled := false,
    requests := [], notification := none, resultsShown := false,
    scoreValue := "", scoreText := "", scoreBackground := "" }

/-! ## Example states -/

/-- A page state with five retained samples whose latest value is 59. -/
def fiveSampleState59 : AnalyticsState :=
  { AnalyticsState.initial with
    analyticsData := [⟨0, 90, 50, 50⟩, ⟨2000, 88, 50, 50⟩, ⟨4000, 80, 50, 50⟩,
      ⟨6000, 75, 50, 50⟩, ⟨8000, 59, 50, 50⟩] }

/-- A page state with five retained samples whose latest value is 65. -/
def fiveSampleState65 : AnalyticsState :=
  { AnalyticsState.initial with
    analyticsData := [⟨0, 90, 50, 50⟩, ⟨2000, 88, 50, 50⟩, ⟨4000, 80, 50, 50⟩,
      ⟨6000, 75, 50, 50⟩, ⟨8000, 65, 50, 50⟩] }

/-- A page state whose only retained sample has value `v`. -/
def oneSampleState (v : ℚ) : AnalyticsState :=
  { AnalyticsState.initial with analyticsData := [⟨0, v, 50, 50⟩] }

/-- A monitoring live page with an empty buffer and no alerts. -/
def freshLiveState : LiveState :=
  { isMonitoring := true, liveDataPoints := [], alertList := [], alertCount := 0 }

/-- Random draws whose first result is `a` and whose later results are `b`. -/
def drawsFirstThen (a b : ℚ) : Nat → ℚ :=
  fun k => if k = 0 then a else b

/-- The alerts `Alert 0`, ..., `Alert (n-1)`, of level medium, in the order they are added. -/
def numberedAlerts (n : Nat) : List AlertItem :=
  (List.range n).map (fun i => ⟨"Alert " ++ toString i, "", Level.medium⟩)

/-- The integer `n` whose digits `toFixed x f` writes: the integer nearest to `|x| * 10^f`,
the larger one on a tie. -/
def roundedScaled (x : ℚ) (f : Nat) : Nat :=
  Int.toNat (Int.floor (|x| * (10 : ℚ) ^ f + 1 / 2))

/-- The number that the text `toFixed x f` denotes: `n / 10^f` with the sign of `x`, for the
integer `n` of `roundedScaled`. -/
def fixedNumber (x : ℚ) (f : Nat) : ℚ :=
  (if x < 0 then -1 else 1) * ((roundedScaled x f : ℚ) / (10 : ℚ) ^ f)

/-- A page state with two retained samples whose values, 85 and 85.0078125, differ by less
than the one decimal shown. -/
def nearlyEqualState : AnalyticsState :=
  { AnalyticsState.initial with
    analyticsData := [⟨0, 85, 50, 50⟩, ⟨2000, 10881 / 128, 50, 50⟩] }

/-! ## Theorems: smoothing -/

/-- Each loop iteration appends exactly one element. -/
theorem foldl_smoothingStep_length (data : List ℚ) (f : ℚ) (l : List Nat) (init : List ℚ) :
    (l.foldl (smoothingStep data f) init).length = init.length + l.length := by
  induction l generalizing init with
  | nil => simp
  | cons i l ih =>
    simp only [List.foldl_cons, ih, smoothingStep, List.length_append, List.length_singleton,
      List.length_cons, List.length_nil]
    omega

/-- Running the loop one index further is one more iteration on the previous result. -/
theorem foldl_smoothingStep_succ (data : List ℚ) (f : ℚ) (k : Nat) (init : List ℚ) :
    (List.range' 1 (k + 1)).foldl (smoothingStep data f) init
      = smoothingStep data f ((List.range' 1 k).foldl (smoothingStep data f) init) (1 + k) := by
  rw [List.range'_concat, List.foldl_append]
  simp

/-- On a non-empty array `applySmoothing` is the loop started from `[data[0]]`. -/
theorem applySmoothing_cons (d : ℚ) (ds : List ℚ) (f : ℚ) :
    applySmoothing (d :: ds) f
      = (List.range' 1 ds.length).foldl (smoothingStep (d :: ds) f) [d] := by
  simp [applySmoothing]

/-- The loop result after `k` iterations (`k < data.length`): it has `k + 1` elements, starts
with `data[0]`, and every later element obeys the recurrence. -/
theorem smoothing_loop_spec (d : ℚ) (ds : List ℚ) (f : ℚ) (k : Nat) (hk : k ≤ ds.length) :
    ((List.range' 1 k).foldl (smoothingStep (d :: ds) f) [d])[0]? = some d ∧
    ∀ i, 1 ≤ i → i ≤ k → ∃ p x,
      ((List.range' 1 k).foldl (smoothingStep (d :: ds) f) [d])[i - 1]? = some p ∧
      (d :: ds)[i]? = some x ∧
      ((List.range' 1 k).foldl (smoothingStep (d :: ds) f) [d])[i]? = some (p * (1 - f) + x * f) := by
  induction k with
  | zero =>
    refine ⟨by simp, ?_⟩
    intro i h1 h2
    omega
  | succ k ih =>
    obtain ⟨ih0, ihr⟩ := ih (by omega)
    have hlen := foldl_smoothingStep_length (d :: ds) f (List.range' 1 k) [d]
    simp only [List.length_singleton, List.length_range'] at hlen
    rw [foldl_smoothingStep_succ]
    generalize hS : (List.range' 1 k).foldl (smoothingStep (d :: ds) f) [d] = S at *
    unfold smoothingStep
    refine ⟨?_, ?_⟩
    · rw [List.getElem?_append_left (by omega)]
      exact ih0
    · intro i h1 h2
      by_cases hik : i ≤ k
      · obtain ⟨p, x, hp, hx, hi⟩ := ihr i h1 hik
        refine ⟨p, x, ?_, hx, ?_⟩
        · rw [List.getElem?_append_left (by omega)]
          exact hp
        · rw [List.getElem?_append_left (by omega)]
          exact hi
      · have hi : i = k + 1 := by omega
        subst hi
        have hk' : k < S.length := by omega
        have hd : k + 1 < (d :: ds).length := by simp; omega
        refine ⟨S[k], (d :: ds)[k + 1], ?_, ?_, ?_⟩
        · rw [List.getElem?_append_left (by simpa using hk')]
          simp [List.getElem?_eq_getElem hk']
        · exact List.getElem?_eq_getElem hd
        · rw [List.getElem?_append_right (by omega)]
          have e1 : 1 + k - 1 = k := by omega
          have e2 : 1 + k = k + 1 := by omega
          have e3 : k + 1 - S.length = 0 := by omega
          rw [e1, e2, e3, List.getD_eq_getElem S 0 hk', List.getD_eq_getElem (d :: ds) 0 hd]
          simp

/-- With factor 1 the loop copies the data: after `k` iterations the result is the first
`k + 1` elements. -/
theorem smoothing_loop_one (d : ℚ) (ds : List ℚ) (k : Nat) (hk : k ≤ ds.length) :
    (List.range' 1 k).foldl (smoothingStep (d :: ds) 1) [d] = (d :: ds).take (k + 1) := by
  induction k with
  | zero => simp
  | succ k ih =>
    rw [foldl_smoothingStep_succ, ih (by omega)]
    have hd : k + 1 < (d :: ds).length := by simp; omega
    have e2 : 1 + k = k + 1 := by omega
    rw [List.take_succ (n := k + 1), List.getElem?_eq_getElem hd]
    unfold smoothingStep
    rw [e2, List.getD_eq_getElem (d :: ds) 0 hd]
    simp

/-- With factor 0 the loop repeats the first value. -/
theorem smoothing_loop_zero (d : ℚ) (ds : List ℚ) (k : Nat) :
    (List.range' 1 k).foldl (smoothingStep (d :: ds) 0) [d] = List.replicate (k + 1) d := by
  induction k with
  | zero => simp
  | succ k ih =>
    rw [foldl_smoothingStep_succ, ih]
    unfold smoothingStep
    have hk : 1 + k - 1 < (List.replicate (k + 1) d).length := by simp
    rw [List.getD_eq_getElem _ 0 hk, List.replicate_succ' (k + 1)]
    simp

/-- C1. For every non-empty `data` and every factor `f`, `applySmoothing(data, f)` obeys the
exponential-moving-average recurrence: element 0 is `data[0]`, and for `1 ≤ i < data.length`
element `i` is (element `i-1`) * (1 - f) + `data[i]` * f. -/
theorem applySmoothing_recurrence (data : List ℚ) (f : ℚ) (h : data ≠ []) :
    (applySmoothing data f)[0]? = data[0]? ∧
    ∀ i, 1 ≤ i → i < data.length → ∃ p x,
      (applySmoothing data f)[i - 1]? = some p ∧ data[i]? = some x ∧
      (applySmoothing data f)[i]? = some (p * (1 - f) + x * f) := by
  cases data with
  | nil => exact absurd rfl h
  | cons d ds =>
    rw [applySmoothing_cons]
    obtain ⟨h0, hr⟩ := smoothing_loop_spec d ds f ds.length (le_refl _)
    refine ⟨by simpa using h0, ?_⟩
    intro i h1 h2
    exact hr i h1 (by simp at h2; omega)

/-- C1, instance: the recurrence on `[80, 90, 70]` with factor 1/2. -/
theorem applySmoothing_recurrence_witness :
    (applySmoothing [80, 90, 70] (1 / 2))[0]? = ([80, 90, 70] : List ℚ)[0]? ∧
    ∀ i, 1 ≤ i → i < ([80, 90, 70] : List ℚ).length → ∃ p x,
      (applySmoothing [80, 90, 70] (1 / 2))[i - 1]? = some p ∧
      ([80, 90, 70] : List ℚ)[i]? = some x ∧
      (applySmoothing [80, 90, 70] (1 / 2))[i]? = some (p * (1 - 1 / 2) + x * (1 / 2)) :=
  applySmoothing_recurrence [80, 90, 70] (1 / 2) (by simp)

/-- C2. For every `data` and factor `f`, `applySmoothing(data, f)` has the length of `data`,
and `applySmoothing([], f) = []`. -/
theorem applySmoothing_length (data : List ℚ) (f : ℚ) :
    (applySmoothing data f).length = data.length ∧ applySmoothing [] f = [] := by
  refine ⟨?_, by simp [applySmoothing]⟩
  cases data with
  | nil => simp [applySmoothing]
  | cons d ds =>
    rw [applySmoothing_cons, foldl_smoothingStep_length]
    simp
    omega

/-- C3. For every list `v`, `applySmoothing(v, 1) = v`. -/
theorem applySmoothing_factor_one (v : List ℚ) : applySmoothing v 1 = v := by
  cases v with
  | nil => simp [applySmoothing]
  | cons d ds =>
    rw [applySmoothing_cons, smoothing_loop_one d ds ds.length (le_refl _)]
    simp

/-- C4. For every non-empty list `v`, `applySmoothing(v, 0)` is the flat line at `v[0]`: it
consists of `v.length` copies of `v[0]`, so every element equals `v[0]`. -/
theorem applySmoothing_factor_zero (v : List ℚ) (h : v ≠ []) :
    applySmoothing v 0 = List.replicate v.length (v.head h) ∧
    ∀ x ∈ applySmoothing v 0, x = v.head h := by
  cases v with
  | nil => exact absurd rfl h
  | cons d ds =>
    have e : applySmoothing (d :: ds) 0 = List.replicate (d :: ds).length d := by
      rw [applySmoothing_cons, smoothing_loop_zero]
      simp
    refine ⟨by simpa using e, ?_⟩
    intro x hx
    rw [e] at hx
    simpa using (List.eq_of_mem_replicate hx)

/-- C4, instance: smoothing `[72, 88, 95]` with factor 0. -/
theorem applySmoothing_factor_zero_witness :
    applySmoothing [72, 88, 95] 0 = List.replicate 3 72 ∧
    ∀ x ∈ applySmoothing [72, 88, 95] 0, x = 72 :=
  applySmoothing_factor_zero [72, 88, 95] (by simp)

/-! ## Theorems: the count-windowed buffer -/

/-- Pushing one more value after a run of pushes. -/
theorem pushAll_append (points values : List ℚ) (x : ℚ) :
    pushAll points (values ++ [x]) = pushShift (pushAll points values) x := by
  simp [pushAll, List.foldl_append]

/-- The push-then-shift step on a buffer holding the last `min n 15` of `n` values. -/
theorem pushShift_drop (values : List ℚ) (x : ℚ) :
    pushShift (values.drop (values.length - min values.length 15)) x
      = (values ++ [x]).drop ((values ++ [x]).length - min (values ++ [x]).length 15) := by
  unfold pushShift MAX_DATA_POINTS
  simp only [List.length_append, List.length_drop, List.length_singleton]
  by_cases h : values.length < 15
  · have e1 : values.length - min values.length 15 = 0 := by omega
    have e2 : values.length + 1 - min (values.length + 1) 15 = 0 := by omega
    rw [e1, e2]
    simp
    omega
  · have e1 : values.length - min values.length 15 = values.length - 15 := by omega
    have e2 : values.length + 1 - min (values.length + 1) 15 = values.length - 15 + 1 := by omega
    rw [e1, e2]
    have h3 : values.length - (values.length - 15) + 1 > 15 := by omega
    rw [if_pos h3, List.drop_append_of_le_length (by omega), ← List.drop_one,
      List.drop_append_of_le_length (by simp; omega), List.drop_drop]

/-- The buffer after pushing `values` into the empty buffer: the last `min n 15` of them. -/
theorem pushAll_nil_eq (values : List ℚ) :
    pushAll [] values = values.drop (values.length - min values.length 15) := by
  induction values using List.reverseRecOn with
  | nil => simp [pushAll]
  | append_singleton xs x ih => rw [pushAll_append, ih, pushShift_drop]

/-- C5. Starting from an empty `liveDataPoints`, after the push-then-shift step has been
applied to any `n` values the buffer is the last `min(n, 15)` of them, oldest first; its
length is `min(n, 15)`, never above `MAX_DATA_POINTS = 15`; pushing 20 values leaves exactly
the 15 most recent. -/
theorem pushAll_last_fifteen (values : List ℚ) :
    pushAll [] values = values.drop (values.length - min values.length 15) ∧
    (pushAll [] values).length = min values.length 15 ∧
    (pushAll [] values).length ≤ MAX_DATA_POINTS ∧
    (values.length = 20 → pushAll [] values = values.drop 5 ∧ (pushAll [] values).length = 15) := by
  have h := pushAll_nil_eq values
  have hl : (pushAll [] values).length = min values.length 15 := by
    rw [h, List.length_drop]
    omega
  refine ⟨h, hl, ?_, ?_⟩
  · rw [hl]
    unfold MAX_DATA_POINTS
    omega
  · intro h20
    refine ⟨?_, by rw [hl, h20]; rfl⟩
    rw [h, h20]
    rfl

/-! ## Theorems: the time-windowed buffer -/

/-- The function `updateTrendLine` does not touch the buffer. -/
theorem updateTrendLine_data (s : AnalyticsState) :
    (updateTrendLine s).analyticsData = s.analyticsData := by
  unfold updateTrendLine
  split <;> rfl

/-- The function `updateChart` does not touch the buffer. -/
theorem updateChart_data (s : AnalyticsState) :
    (updateChart s).analyticsData = s.analyticsData := by
  unfold updateChart
  rw [updateTrendLine_data]

/-- The function `updateStats` does not touch the buffer. -/
theorem updateStats_data (s : AnalyticsState) :
    (updateStats s).analyticsData = s.analyticsData := by
  unfold updateStats
  split <;> rfl

/-- The function `checkForAlerts` does not touch the buffer. -/
theorem checkForAlerts_data (s : AnalyticsState) (gate : ℚ) :
    (checkForAlerts s gate).analyticsData = s.analyticsData := by
  unfold checkForAlerts
  split <;> rfl

/-- The buffer after an unpaused tick is the result of its push-and-filter step. -/
theorem updateAnalyticsData_data (s : AnalyticsState) (tPush tCut : Int) (rnd : Nat → ℚ)
    (h : s.isPaused = false) :
    (updateAnalyticsData s tPush tCut rnd).analyticsData = pushAndFilter s tPush tCut rnd := by
  unfold updateAnalyticsData
  simp only [h, Bool.false_eq_true, if_false]
  rw [checkForAlerts_data, updateStats_data, updateChart_data]

/-- A paused tick returns at once. -/
theorem updateAnalyticsData_paused (s : AnalyticsState) (tPush tCut : Int) (rnd : Nat → ℚ)
    (h : s.isPaused = true) :
    updateAnalyticsData s tPush tCut rnd = s := by
  simp [updateAnalyticsData, h]

/-- The buffer after `updateChartTimeRange` is the filtered buffer. -/
theorem updateChartTimeRange_data (s : AnalyticsState) (now : Int) :
    (updateChartTimeRange s now).analyticsData
      = filterWindow s.analyticsData now s.currentTimeRange := by
  unfold updateChartTimeRange
  rw [updateStats_data, updateChart_data]

/-- Every sample kept by the filter is inside the window. -/
theorem filterWindow_mem (data : List Sample) (now range : Int) (p : Sample)
    (hp : p ∈ filterWindow data now range) :
    p ∈ data ∧ p.timestamp ≥ now - range * 1000 := by
  unfold filterWindow at hp
  rw [List.mem_filter] at hp
  exact ⟨hp.1, by simpa using hp.2⟩

/-- C6. Immediately after the push-and-filter step of an unpaused tick whose cutoff is
computed at clock time `now` with time range `r = currentTimeRange` seconds, and still at
the end of that tick, every sample retained in `analyticsData` has
timestamp >= now - r * 1000 ms. -/
theorem tick_window_invariant (s : AnalyticsState) (tPush now : Int) (rnd : Nat → ℚ)
    (h : s.isPaused = false) :
    (∀ p ∈ pushAndFilter s tPush now rnd, p.timestamp ≥ now - s.currentTimeRange * 1000) ∧
    (∀ p ∈ (updateAnalyticsData s tPush now rnd).analyticsData,
      p.timestamp ≥ now - s.currentTimeRange * 1000) := by
  have key : ∀ p ∈ pushAndFilter s tPush now rnd,
      p.timestamp ≥ now - s.currentTimeRange * 1000 := by
    intro p hp
    exact (filterWindow_mem _ _ _ p hp).2
  refine ⟨key, ?_⟩
  rw [updateAnalyticsData_data s tPush now rnd h]
  exact key

/-- C6, instance: a tick at `now = 40000` on the initial state (range 30 s). -/
theorem tick_window_invariant_witness :
    (∀ p ∈ pushAndFilter AnalyticsState.initial 40000 40000 (fun _ => 1 / 2),
      p.timestamp ≥ 40000 - AnalyticsState.initial.currentTimeRange * 1000) ∧
    (∀ p ∈ (updateAnalyticsData AnalyticsState.initial 40000 40000 (fun _ => 1 / 2)).analyticsData,
      p.timestamp ≥ 40000 - AnalyticsState.initial.currentTimeRange * 1000) :=
  tick_window_invariant AnalyticsState.initial 40000 40000 (fun _ => 1 / 2) rfl

/-- The filter keeps a sorted buffer sorted. -/
theorem filterWindow_sorted (data : List Sample) (now range : Int) (h : SortedByTime data) :
    SortedByTime (filterWindow data now range) := by
  unfold SortedByTime filterWindow
  exact List.Pairwise.filter _ h

/-- Appending a sample that is not earlier than any retained one keeps the buffer sorted. -/
theorem sorted_push (data : List Sample) (p : Sample) (h : SortedByTime data)
    (hp : ∀ q ∈ data, q.timestamp ≤ p.timestamp) :
    SortedByTime (data ++ [p]) := by
  unfold SortedByTime at *
  rw [List.pairwise_append]
  refine ⟨h, List.pairwise_singleton _ _, ?_⟩
  intro a ha b hb
  rw [List.mem_singleton] at hb
  subst hb
  exact hp a ha

/-- The buffer after any event, in terms of the buffer before. -/
theorem apply_data (s : AnalyticsState) (e : AnalyticsEvent) :
    (e.apply s).analyticsData =
      match e with
      | .tick tPush tCut rnd =>
        if s.isPaused then s.analyticsData else pushAndFilter s tPush tCut rnd
      | .rangeClick range now => filterWindow s.analyticsData now range
      | .pauseClick => s.analyticsData
      | .slider _ => s.analyticsData := by
  cases e with
  | tick tPush tCut rnd =>
    simp only [AnalyticsEvent.apply]
    cases hp : s.isPaused with
    | true => rw [updateAnalyticsData_paused s tPush tCut rnd hp]; simp
    | false => rw [updateAnalyticsData_data s tPush tCut rnd hp]; simp
  | rangeClick range now =>
    simp only [AnalyticsEvent.apply, timeRangeClick]
    rw [updateChartTimeRange_data]
  | pauseClick => rfl
  | slider level =>
    simp only [AnalyticsEvent.apply, smoothingInput]
    rw [updateTrendLine_data]

/-- One event preserves the invariant of a run: the buffer is sorted and none of its samples
is later than a clock reading still to come. -/
theorem apply_preserves_sorted (s : AnalyticsState) (e : AnalyticsEvent)
    (es : List AnalyticsEvent) (hc : ClockMonotone (e :: es))
    (hs : SortedByTime s.analyticsData)
    (hn : NotAfter s.analyticsData ((e :: es).flatMap AnalyticsEvent.clock)) :
    ClockMonotone es ∧ SortedByTime (e.apply s).analyticsData ∧
      NotAfter (e.apply s).analyticsData (es.flatMap AnalyticsEvent.clock) := by
  unfold ClockMonotone at hc
  rw [List.flatMap_cons, List.pairwise_append] at hc
  obtain ⟨_, hces, hcross⟩ := hc
  rw [List.flatMap_cons] at hn
  have hn' : NotAfter s.analyticsData (es.flatMap AnalyticsEvent.clock) := by
    intro p hp t ht
    exact hn p hp t (List.mem_append_right _ ht)
  refine ⟨hces, ?_⟩
  rw [apply_data]
  cases e with
  | tick tPush tCut rnd =>
    cases hp : s.isPaused with
    | true => exact ⟨by simpa using hs, by simpa using hn'⟩
    | false =>
      have hpush : ∀ q ∈ s.analyticsData, q.timestamp ≤ (newSample s.analyticsData tPush rnd).timestamp := by
        intro q hq
        exact hn q hq tPush (List.mem_append_left _ (by simp [AnalyticsEvent.clock]))
      simp only [Bool.false_eq_true, if_false, pushAndFilter]
      refine ⟨filterWindow_sorted _ _ _ (sorted_push _ _ hs hpush), ?_⟩
      intro p hp' t ht
      have hmem := (filterWindow_mem _ _ _ p hp').1
      rw [List.mem_append, List.mem_singleton] at hmem
      rcases hmem with hmem | hmem
      · exact hn' p hmem t ht
      · subst hmem
        exact hcross tPush (by simp [AnalyticsEvent.clock]) t ht
  | rangeClick range now =>
    refine ⟨filterWindow_sorted _ _ _ hs, ?_⟩
    intro p hp' t ht
    exact hn' p (filterWindow_mem _ _ _ p hp').1 t ht
  | pauseClick => exact ⟨hs, hn'⟩
  | slider level => exact ⟨hs, hn'⟩

/-- Along a run under a monotone clock the buffer is sorted after every step. -/
theorem run_sorted (evs : List AnalyticsEvent) :
    ∀ (s : AnalyticsState), ClockMonotone evs → SortedByTime s.analyticsData →
      NotAfter s.analyticsData (evs.flatMap AnalyticsEvent.clock) →
      ∀ k, SortedByTime (runAnalytics s (evs.take k)).analyticsData := by
  induction evs with
  | nil =>
    intro s _ hs _ k
    simpa [runAnalytics] using hs
  | cons e es ih =>
    intro s hc hs hn k
    cases k with
    | zero => simpa [runAnalytics] using hs
    | succ k =>
      obtain ⟨hc', hs', hn'⟩ := apply_preserves_sorted s e es hc hs hn
      have := ih (e.apply s) hc' hs' hn' k
      simpa [runAnalytics] using this

/-- C7. For every sequence of ticks and time-range changes (and pause or slider events)
starting from the empty buffer, under a clock that never goes backwards, `analyticsData` is
sorted ascending by timestamp after every step. -/
theorem analyticsData_sorted (s : AnalyticsState) (evs : List AnalyticsEvent)
    (hempty : s.analyticsData = []) (hclock : ClockMonotone evs) :
    ∀ k, SortedByTime (runAnalytics s (evs.take k)).analyticsData := by
  apply run_sorted evs s hclock
  · rw [hempty]
    exact List.Pairwise.nil
  · intro p hp
    rw [hempty] at hp
    exact absurd hp (List.not_mem_nil p)

/-- C7, instance: two ticks, a change to a 10 s range, and one more tick. -/
theorem analyticsData_sorted_witness :
    ClockMonotone
      [AnalyticsEvent.tick 0 0 (fun _ => 1 / 2), AnalyticsEvent.tick 2000 2001 (fun _ => 1 / 2),
        AnalyticsEvent.rangeClick 10 3000, AnalyticsEvent.tick 4000 4000 (fun _ => 1 / 2)] ∧
    ∀ k, SortedByTime (runAnalytics AnalyticsState.initial
      (List.take k
        [AnalyticsEvent.tick 0 0 (fun _ => 1 / 2), AnalyticsEvent.tick 2000 2001 (fun _ => 1 / 2),
          AnalyticsEvent.rangeClick 10 3000,
          AnalyticsEvent.tick 4000 4000 (fun _ => 1 / 2)])).analyticsData :=
  ⟨by simp [ClockMonotone, AnalyticsEvent.clock],
   analyticsData_sorted AnalyticsState.initial _ rfl
     (by simp [ClockMonotone, AnalyticsEvent.clock])⟩

/-- The alert check of the live monitor does not touch the buffer. -/
theorem liveCheckForAlerts_points (s : LiveState) (score : ℚ) (rnd : Nat → ℚ) (k : Nat) :
    (liveCheckForAlerts s score rnd k).liveDataPoints = s.liveDataPoints := by
  unfold liveCheckForAlerts
  dsimp only
  split_ifs <;> rfl

/-- The buffer after a tick of the live monitor while monitoring. -/
theorem updateLiveData_points (s : LiveState) (rnd : Nat → ℚ) (h : s.isMonitoring = true) :
    (updateLiveData s rnd).liveDataPoints
      = pushShift s.liveDataPoints (generateBias (lastPointOr s.liveDataPoints 100) rnd).1 := by
  unfold updateLiveData
  simp only [h, Bool.not_true, Bool.false_eq_true, if_false]
  rw [liveCheckForAlerts_points]

/-- The push-then-shift step, by cases on the buffer. -/
theorem pushShift_cases (points : List ℚ) (x : ℚ) :
    pushShift points x = points ++ [x] ∨
      ∃ a rest, points = a :: rest ∧ pushShift points x = rest ++ [x] := by
  unfold pushShift
  dsimp only
  split
  · right
    cases points with
    | nil => simp [MAX_DATA_POINTS] at *
    | cons a rest => exact ⟨a, rest, rfl, by simp⟩
  · left
    rfl

/-- The push-and-filter step keeps the new sample last when the cutoff is not after it. -/
theorem pushAndFilter_last (s : AnalyticsState) (tPush tCut : Int) (rnd : Nat → ℚ)
    (h : tCut - s.currentTimeRange * 1000 ≤ tPush) :
    pushAndFilter s tPush tCut rnd
      = filterWindow s.analyticsData tCut s.currentTimeRange
          ++ [newSample s.analyticsData tPush rnd] := by
  unfold pushAndFilter filterWindow
  rw [List.filter_append]
  congr 1
  have : (newSample s.analyticsData tPush rnd).timestamp = tPush := rfl
  simp [this]
  omega

/-- C8. The push appends the sample. After an unpaused `updateAnalyticsData` tick with a
positive time range, whose two clock readings are less than a second apart (in particular
equal), the buffer is non-empty and its last element is the sample generated in that tick;
after every `updateLiveData` tick while monitoring, `liveDataPoints` is non-empty and its last
element is the value generated in that tick. -/
theorem push_keeps_newest (s : AnalyticsState) (tPush tCut : Int) (rnd : Nat → ℚ)
    (t : LiveState) (rndLive : Nat → ℚ)
    (hpause : s.isPaused = false) (hrange : 0 < s.currentTimeRange)
    (hclock : tCut - tPush < 1000) (hmon : t.isMonitoring = true) :
    ((updateAnalyticsData s tPush tCut rnd).analyticsData ≠ [] ∧
      (updateAnalyticsData s tPush tCut rnd).analyticsData.getLast?
        = some (newSample s.analyticsData tPush rnd)) ∧
    ((updateLiveData t rndLive).liveDataPoints ≠ [] ∧
      (updateLiveData t rndLive).liveDataPoints.getLast?
        = some (generateBias (lastPointOr t.liveDataPoints 100) rndLive).1) := by
  constructor
  · rw [updateAnalyticsData_data s tPush tCut rnd hpause,
      pushAndFilter_last s tPush tCut rnd (by nlinarith)]
    exact ⟨by simp, by simp⟩
  · rw [updateLiveData_points t rndLive hmon]
    rcases pushShift_cases t.liveDataPoints
      (generateBias (lastPointOr t.liveDataPoints 100) rndLive).1 with h | ⟨a, rest, _, h⟩
    · rw [h]
      exact ⟨by simp, by simp⟩
    · rw [h]
      exact ⟨by simp, by simp⟩

/-- C8, instance: a first tick of both pages at one clock reading. -/
theorem push_keeps_newest_witness :
    ((updateAnalyticsData AnalyticsState.initial 5000 5000 (fun _ => 1 / 2)).analyticsData ≠ [] ∧
      (updateAnalyticsData AnalyticsState.initial 5000 5000 (fun _ => 1 / 2)).analyticsData.getLast?
        = some (newSample AnalyticsState.initial.analyticsData 5000 (fun _ => 1 / 2))) ∧
    ((updateLiveData ⟨true, [], [], 0⟩ (fun _ => 1 / 2)).liveDataPoints ≠ [] ∧
      (updateLiveData ⟨true, [], [], 0⟩ (fun _ => 1 / 2)).liveDataPoints.getLast?
        = some (generateBias (lastPointOr (LiveState.mk true [] [] 0).liveDataPoints 100)
            (fun _ => 1 / 2)).1) :=
  push_keeps_newest AnalyticsState.initial 5000 5000 (fun _ => 1 / 2) ⟨true, [], [], 0⟩
    (fun _ => 1 / 2) rfl (by decide) (by decide) rfl

/-! ## Theorems: eviction -/

/-- On a sorted buffer the filter removes samples from the front only. -/
theorem filterWindow_suffix (data : List Sample) (now range : Int) (h : SortedByTime data) :
    List.IsSuffix (filterWindow data now range) data := by
  induction data with
  | nil => exact List.suffix_refl _
  | cons a rest ih =>
    unfold SortedByTime at h
    rw [List.pairwise_cons] at h
    by_cases ha : a.timestamp ≥ now - range * 1000
    · have hall : filterWindow (a :: rest) now range = a :: rest := by
        unfold filterWindow
        rw [List.filter_eq_self]
        intro q hq
        rw [List.mem_cons] at hq
        rcases hq with hq | hq
        · subst hq
          simpa using ha
        · have := h.1 q hq
          simp only [decide_eq_true_eq]
          omega
      rw [hall]
    · have hdrop : filterWindow (a :: rest) now range = filterWindow rest now range := by
        unfold filterWindow
        rw [List.filter_cons_of_neg]
        simpa using ha
      rw [hdrop]
      exact (ih h.2).trans (List.suffix_cons a rest)

/-- Appending the same list to both sides keeps a suffix a suffix. -/
theorem suffix_append_right {α : Type} (a b c : List α) (h : List.IsSuffix a b) :
    List.IsSuffix (a ++ c) (b ++ c) := by
  obtain ⟨t, ht⟩ := h
  exact ⟨t, by rw [← List.append_assoc, ht]⟩

/-- The push-then-shift step removes values from the front only. -/
theorem pushShift_suffix (points : List ℚ) (x : ℚ) :
    List.IsSuffix (pushShift points x) (points ++ [x]) := by
  rcases pushShift_cases points x with h | ⟨a, rest, hp, h⟩
  · rw [h]
  · rw [h, hp]
    exact List.suffix_cons a (rest ++ [x])

/-- After any number of push-then-shift steps the buffer is a suffix of the old buffer
followed by the pushed values. -/
theorem pushAll_suffix (values : List ℚ) :
    ∀ points : List ℚ, List.IsSuffix (pushAll points values) (points ++ values) := by
  induction values with
  | nil =>
    intro points
    simp [pushAll]
  | cons x xs ih =>
    intro points
    have h1 : List.IsSuffix (pushAll (pushShift points x) xs) (pushShift points x ++ xs) :=
      ih (pushShift points x)
    have h2 := suffix_append_right _ _ xs (pushShift_suffix points x)
    have h3 := h1.trans h2
    simpa [pushAll] using h3

/-- One event removes samples from the front only: the buffer afterwards is a suffix of the
buffer before followed by what the event pushed. -/
theorem apply_suffix (s : AnalyticsState) (e : AnalyticsEvent)
    (hs : SortedByTime s.analyticsData) (hn : NotAfter s.analyticsData e.clock) :
    List.IsSuffix (e.apply s).analyticsData (s.analyticsData ++ e.pushed s) := by
  rw [apply_data]
  cases e with
  | tick tPush tCut rnd =>
    cases hp : s.isPaused with
    | true => simp [AnalyticsEvent.pushed, hp]
    | false =>
      have hpush : ∀ q ∈ s.analyticsData,
          q.timestamp ≤ (newSample s.analyticsData tPush rnd).timestamp := by
        intro q hq
        exact hn q hq tPush (by simp [AnalyticsEvent.clock])
      simpa [AnalyticsEvent.pushed, hp, pushAndFilter] using
        filterWindow_suffix _ tCut s.currentTimeRange (sorted_push _ _ hs hpush)
  | rangeClick range now =>
    simpa [AnalyticsEvent.pushed] using filterWindow_suffix _ now range hs
  | pauseClick => simp [AnalyticsEvent.pushed]
  | slider level => simp [AnalyticsEvent.pushed]

/-- Along a run under a monotone clock the buffer is a suffix of the starting buffer followed
by all samples pushed during the run. -/
theorem run_suffix (evs : List AnalyticsEvent) :
    ∀ (s : AnalyticsState), ClockMonotone evs → SortedByTime s.analyticsData →
      NotAfter s.analyticsData (evs.flatMap AnalyticsEvent.clock) →
      List.IsSuffix (runAnalytics s evs).analyticsData (s.analyticsData ++ pushedAlong s evs) := by
  induction evs with
  | nil =>
    intro s _ _ _
    simp [runAnalytics, pushedAlong]
  | cons e es ih =>
    intro s hc hs hn
    obtain ⟨hc', hs', hn'⟩ := apply_preserves_sorted s e es hc hs hn
    have hne : NotAfter s.analyticsData e.clock := by
      intro p hp t ht
      exact hn p hp t (by rw [List.flatMap_cons]; exact List.mem_append_left _ ht)
    have h1 := ih (e.apply s) hc' hs' hn'
    have h2 := suffix_append_right _ _ (pushedAlong (e.apply s) es) (apply_suffix s e hs hne)
    have h3 := h1.trans h2
    simpa [runAnalytics, pushedAlong, List.append_assoc] using h3

/-- C9. Eviction is monotonic. For every buffer sorted by timestamp and every push whose
clock reading is not before any retained timestamp, the buffer after an unpaused tick is a
contiguous suffix of the buffer before followed by the new sample; along any run from such
a state under a clock that never goes backwards the buffer is a suffix of the starting buffer
followed by the samples pushed since, so an evicted sample never comes back. The same two
statements hold for `liveDataPoints` under the push-then-shift step. -/
theorem eviction_monotonic (s : AnalyticsState) (tPush tCut : Int) (rnd : Nat → ℚ)
    (evs : List AnalyticsEvent) (t : LiveState) (rndLive : Nat → ℚ) (values : List ℚ)
    (hpause : s.isPaused = false) (hsorted : SortedByTime s.analyticsData)
    (hpush : ∀ q ∈ s.analyticsData, q.timestamp ≤ tPush)
    (hfuture : NotAfter s.analyticsData (evs.flatMap AnalyticsEvent.clock))
    (hclock : ClockMonotone evs) (hmon : t.isMonitoring = true) :
    List.IsSuffix (updateAnalyticsData s tPush tCut rnd).analyticsData
      (s.analyticsData ++ [newSample s.analyticsData tPush rnd]) ∧
    List.IsSuffix (runAnalytics s evs).analyticsData (s.analyticsData ++ pushedAlong s evs) ∧
    List.IsSuffix (updateLiveData t rndLive).liveDataPoints
      (t.liveDataPoints ++ [(generateBias (lastPointOr t.liveDataPoints 100) rndLive).1]) ∧
    List.IsSuffix (pushAll t.liveDataPoints values) (t.liveDataPoints ++ values) := by
  refine ⟨?_, run_suffix evs s hclock hsorted hfuture, ?_, pushAll_suffix values _⟩
  · rw [updateAnalyticsData_data s tPush tCut rnd hpause]
    unfold pushAndFilter
    exact filterWindow_suffix _ tCut s.currentTimeRange
      (sorted_push _ _ hsorted (fun q hq => hpush q hq))
  · rw [updateLiveData_points t rndLive hmon]
    exact pushShift_suffix _ _

/-- C9, instance: a buffer of two samples, a tick at 4000 ms, then a run of a tick and a change
to a 1 s range; a live buffer of two values and two pushes. -/
theorem eviction_monotonic_witness :
    List.IsSuffix (updateAnalyticsData twoSampleState 4000 4000 (fun _ => 1 / 2)).analyticsData
      (twoSampleState.analyticsData
        ++ [newSample twoSampleState.analyticsData 4000 (fun _ => 1 / 2)]) ∧
    List.IsSuffix
      (runAnalytics twoSampleState
        [AnalyticsEvent.tick 4000 4000 (fun _ => 1 / 2),
          AnalyticsEvent.rangeClick 1 5000]).analyticsData
      (twoSampleState.analyticsData ++ pushedAlong twoSampleState
        [AnalyticsEvent.tick 4000 4000 (fun _ => 1 / 2), AnalyticsEvent.rangeClick 1 5000]) ∧
    List.IsSuffix (updateLiveData twoPointState (fun _ => 1 / 2)).liveDataPoints
      (twoPointState.liveDataPoints
        ++ [(generateBias (lastPointOr twoPointState.liveDataPoints 100) (fun _ => 1 / 2)).1]) ∧
    List.IsSuffix (pushAll twoPointState.liveDataPoints [92, 93])
      (twoPointState.liveDataPoints ++ [92, 93]) :=
  eviction_monotonic twoSampleState 4000 4000 (fun _ => 1 / 2)
    [AnalyticsEvent.tick 4000 4000 (fun _ => 1 / 2), AnalyticsEvent.rangeClick 1 5000]
    twoPointState (fun _ => 1 / 2) [92, 93] rfl
    (by simp [SortedByTime, twoSampleState])
    (by simp [twoSampleState])
    (by simp [NotAfter, twoSampleState, AnalyticsEvent.clock])
    (by simp [ClockMonotone, AnalyticsEvent.clock])
    rfl

/-! ## Theorems: reconfiguring the window -/

/-- The functions called after the filter leave `currentTimeRange` alone. -/
theorem updateChartTimeRange_range (s : AnalyticsState) (now : Int) :
    (updateChartTimeRange s now).currentTimeRange = s.currentTimeRange := by
  unfold updateChartTimeRange updateStats updateChart updateTrendLine
  dsimp only
  split_ifs <;> rfl

/-- C10, as stated, fails: after one tick at time 0 (range 30 s) the buffer holds one sample;
a click on a 10 s range button at time 20000 ms empties it at once, before any further push. -/
theorem timeRangeClick_evicts_at_once :
    (updateAnalyticsData AnalyticsState.initial 0 0 (fun _ => 1 / 2)).analyticsData
      = [newSample [] 0 (fun _ => 1 / 2)] ∧
    (timeRangeClick (updateAnalyticsData AnalyticsState.initial 0 0 (fun _ => 1 / 2))
      10 20000).analyticsData = [] ∧
    (timeRangeClick (updateAnalyticsData AnalyticsState.initial 0 0 (fun _ => 1 / 2))
      10 20000).analyticsData
      ≠ (updateAnalyticsData AnalyticsState.initial 0 0 (fun _ => 1 / 2)).analyticsData := by
  have h1 : (updateAnalyticsData AnalyticsState.initial 0 0 (fun _ => 1 / 2)).analyticsData
      = [newSample [] 0 (fun _ => 1 / 2)] := by
    rw [updateAnalyticsData_data _ _ _ _ rfl, pushAndFilter_last _ _ _ _ (by decide)]
    simp [filterWindow, AnalyticsState.initial]
  have h2 : (timeRangeClick (updateAnalyticsData AnalyticsState.initial 0 0 (fun _ => 1 / 2))
      10 20000).analyticsData = [] := by
    unfold timeRangeClick
    rw [updateChartTimeRange_data]
    dsimp only
    rw [h1]
    simp [filterWindow, newSample]
  refine ⟨h1, h2, ?_⟩
  rw [h2, h1]
  simp

/-- C10, amended. A time-range click sets `currentTimeRange` to the new range and at once
filters `analyticsData` to the samples with timestamp >= now - range * 1000 ms, in their order;
the buffer is left unchanged by the reconfiguration exactly when every retained sample lies
inside the new window. -/
theorem timeRangeClick_filters (s : AnalyticsState) (range now : Int) :
    (timeRangeClick s range now).currentTimeRange = range ∧
    (timeRangeClick s range now).analyticsData
      = s.analyticsData.filter (fun p => decide (p.timestamp ≥ now - range * 1000)) ∧
    ((timeRangeClick s range now).analyticsData = s.analyticsData ↔
      ∀ p ∈ s.analyticsData, p.timestamp ≥ now - range * 1000) := by
  have hd : (timeRangeClick s range now).analyticsData
      = s.analyticsData.filter (fun p => decide (p.timestamp ≥ now - range * 1000)) := by
    unfold timeRangeClick
    rw [updateChartTimeRange_data]
    rfl
  refine ⟨?_, hd, ?_⟩
  · unfold timeRangeClick
    rw [updateChartTimeRange_range]
  · rw [hd, List.filter_eq_self]
    simp

/-! ## Theorems: the alert rules of analytics.js -/

/-- The `currentValue` of `checkForAlerts` is the value of the latest sample. -/
theorem recent_current_eq_last (data : List Sample) (p : Sample)
    (hlast : data.getLast? = some p) :
    ((sliceLast5 data).map (fun point => point.value)).getD
      (((sliceLast5 data).map (fun point => point.value)).length - 1) 0 = p.value := by
  have hne : data ≠ [] := by
    intro h
    rw [h] at hlast
    simp at hlast
  have hlen : 0 < data.length := List.length_pos.mpr hne
  have hslice : (sliceLast5 data).getLast? = some p := by
    unfold sliceLast5
    rw [List.getLast?_drop, if_neg (by omega), hlast]
  rw [List.getD_eq_getElem?_getD, ← List.getLast?_eq_getElem?, List.getLast?_map, hslice]
  rfl

/-- The text written by `checkForAlerts` once five samples are retained, as a function of
the latest value, the mean of the last five values and the gate. -/
theorem checkForAlerts_summary (s : AnalyticsState) (gate : ℚ) (p : Sample)
    (h5 : 5 ≤ s.analyticsData.length) (hlast : s.analyticsData.getLast? = some p) :
    (checkForAlerts s gate).alertSummary =
      if p.value < 60 then "⚠️ CRITICAL: Fairness score below 60%"
      else if p.value < 70 then "⚠️ WARNING: Fairness score below 70%"
      else if sumValues ((sliceLast5 s.analyticsData).map (fun point => point.value))
            / (((sliceLast5 s.analyticsData).map (fun point => point.value)).length : ℚ) < 75
          ∧ gate > 0.7 then "⚠️ MONITOR: Average score trending low"
      else "No alerts in current time range" := by
  unfold checkForAlerts
  rw [if_neg (by omega)]
  dsimp only
  rw [recent_current_eq_last s.analyticsData p hlast]

/-- With fewer than five samples `checkForAlerts` returns at once. -/
theorem checkForAlerts_few (s : AnalyticsState) (gate : ℚ) (h : s.analyticsData.length < 5) :
    checkForAlerts s gate = s := by
  unfold checkForAlerts
  rw [if_pos h]

/-- C11. With at least 5 samples in `analyticsData`, `checkForAlerts` sets the alert text from
the latest value alone for the two immediate rules: CRITICAL when latest < 60 and WARNING
when 60 <= latest < 70, for every result of `Math.random` and whatever the other recent
values are. -/
theorem checkForAlerts_immediate (s : AnalyticsState) (gate : ℚ) (p : Sample)
    (h5 : 5 ≤ s.analyticsData.length) (hlast : s.analyticsData.getLast? = some p) :
    (p.value < 60 →
      (checkForAlerts s gate).alertSummary = "⚠️ CRITICAL: Fairness score below 60%") ∧
    (60 ≤ p.value → p.value < 70 →
      (checkForAlerts s gate).alertSummary = "⚠️ WARNING: Fairness score below 70%") := by
  rw [checkForAlerts_summary s gate p h5 hlast]
  constructor
  · intro h
    rw [if_pos h]
  · intro h1 h2
    rw [if_neg (not_lt.mpr h1), if_pos h2]

/-- C11, instance: five samples ending in 59, and five samples ending in 65, with a gate
result of 9/10. -/
theorem checkForAlerts_immediate_witness :
    (checkForAlerts fiveSampleState59 (9 / 10)).alertSummary
      = "⚠️ CRITICAL: Fairness score below 60%" ∧
    (checkForAlerts fiveSampleState65 (9 / 10)).alertSummary
      = "⚠️ WARNING: Fairness score below 70%" :=
  ⟨(checkForAlerts_immediate fiveSampleState59 (9 / 10) ⟨8000, 59, 50, 50⟩
      (by simp [fiveSampleState59]) (by simp [fiveSampleState59])).1 (by norm_num),
   (checkForAlerts_immediate fiveSampleState65 (9 / 10) ⟨8000, 65, 50, 50⟩
      (by simp [fiveSampleState65]) (by simp [fiveSampleState65])).2
      (by norm_num) (by norm_num)⟩

/-! ## Theorems: the alert rules of the live monitor -/

/-- The critical rule: a score below 65 whose gate passes gives the high alert. -/
theorem live_critical (s : LiveState) (x : ℚ) (rnd : Nat → ℚ) (k : Nat)
    (hx : x < 65) (hg : rnd k > 0.5) :
    liveCheckForAlerts s x rnd k
      = withAlert s "Critical Bias Detected" (criticalMessage x) Level.high true := by
  unfold liveCheckForAlerts
  rw [if_pos ⟨hx, hg⟩]
  rfl

/-- A score below 65 whose critical gate fails falls through to the warning rule. -/
theorem live_critical_falls_through (s : LiveState) (x : ℚ) (rnd : Nat → ℚ) (k : Nat)
    (hx : x < 65) (hg : ¬ rnd k > 0.5) (hg2 : rnd (k + 1) > 0.7) :
    liveCheckForAlerts s x rnd k
      = withAlert s "High Bias Warning" (warningMessage x) Level.medium true := by
  unfold liveCheckForAlerts
  rw [if_neg (fun h => hg h.2)]
  dsimp only
  rw [if_pos hx, if_pos ⟨by linarith, hg2⟩]
  rfl

/-- A score below 65 both of whose gates fail gives no alert. -/
theorem live_below65_none (s : LiveState) (x : ℚ) (rnd : Nat → ℚ) (k : Nat)
    (hx : x < 65) (hg : ¬ rnd k > 0.5) (hg2 : ¬ rnd (k + 1) > 0.7) :
    liveCheckForAlerts s x rnd k = s := by
  unfold liveCheckForAlerts
  rw [if_neg (fun h => hg h.2)]
  dsimp only
  rw [if_pos hx, if_neg (fun h => hg2 h.2), if_neg (fun h => by linarith [h.1])]

/-- The warning rule: a score in `[65, 75)` whose gate passes gives the medium alert. -/
theorem live_warning (s : LiveState) (x : ℚ) (rnd : Nat → ℚ) (k : Nat)
    (hx1 : 65 ≤ x) (hx2 : x < 75) (hg : rnd k > 0.7) :
    liveCheckForAlerts s x rnd k
      = withAlert s "High Bias Warning" (warningMessage x) Level.medium true := by
  unfold liveCheckForAlerts
  rw [if_neg (fun h => by linarith [h.1])]
  dsimp only
  rw [if_neg (not_lt.mpr hx1), if_pos ⟨hx2, hg⟩]
  rfl

/-- A score in `[65, 75)` whose gate fails gives no alert. -/
theorem live_warning_none (s : LiveState) (x : ℚ) (rnd : Nat → ℚ) (k : Nat)
    (hx1 : 65 ≤ x) (hx2 : x < 75) (hg : ¬ rnd k > 0.7) :
    liveCheckForAlerts s x rnd k = s := by
  unfold liveCheckForAlerts
  rw [if_neg (fun h => by linarith [h.1])]
  dsimp only
  rw [if_neg (not_lt.mpr hx1), if_neg (fun h => hg h.2), if_neg (fun h => by linarith [h.1])]

/-- The improvement rule: a score above 95 whose gate passes gives the low alert, the
displayed count being left alone. -/
theorem live_excellent (s : LiveState) (x : ℚ) (rnd : Nat → ℚ) (k : Nat)
    (hx : x > 95) (hg : rnd k > 0.8) :
    liveCheckForAlerts s x rnd k
      = withAlert s "Excellent Fairness" (excellentMessage x) Level.low false := by
  have h65 : ¬ x < 65 := by intro h; linarith
  have h75 : ¬ x < 75 := by intro h; linarith
  unfold liveCheckForAlerts
  simp only [h65, h75, false_and, if_false]
  rw [if_pos ⟨hx, hg⟩]
  rfl

/-- The new item is at the top of the list after `addAlert`. -/
theorem addAlert_head (alerts : List ChildNode) (title message : String) (level : Level) :
    (addAlert alerts title message level).head?
      = some (ChildNode.alert ⟨title, message, level⟩) := by
  unfold addAlert
  dsimp only
  split
  · cases alerts with
    | nil => simp [childrenLength, ChildNode.isElement] at *
    | cons b l => simp
  · rfl

/-- One more element child is counted after an insertion. -/
theorem childrenLength_cons_alert (item : AlertItem) (nodes : List ChildNode) :
    childrenLength (ChildNode.alert item :: nodes) = childrenLength nodes + 1 := by
  simp [childrenLength, ChildNode.isElement]

/-- Below ten alert elements `addAlert` only inserts. -/
theorem addAlert_short (alerts : List ChildNode) (title message : String) (level : Level)
    (h : childrenLength alerts < 10) :
    addAlert alerts title message level = ChildNode.alert ⟨title, message, level⟩ :: alerts := by
  unfold addAlert
  dsimp only
  rw [childrenLength_cons_alert, if_neg (by omega)]

/-- C12, as stated, fails. On the one-element sequence `[59]` (and `[65]`) the analytics
evaluator returns before looking at the value, leaving the alert text as it was; the live
evaluator on 59 gives no alert when both gates fail and a medium alert when only the second
passes, and on 65 gives no alert when its gate fails. -/
theorem single_value_alert_depends_on_gate :
    checkForAlerts (oneSampleState 59) (9 / 10) = oneSampleState 59 ∧
    checkForAlerts (oneSampleState 65) (9 / 10) = oneSampleState 65 ∧
    (oneSampleState 59).alertSummary = "" ∧
    liveCheckForAlerts freshLiveState 59 (fun _ => 0) 0 = freshLiveState ∧
    (liveCheckForAlerts freshLiveState 59 (drawsFirstThen 0 (9 / 10)) 0).alertList
      = [ChildNode.alert ⟨"High Bias Warning", warningMessage 59, Level.medium⟩] ∧
    liveCheckForAlerts freshLiveState 65 (fun _ => 0) 0 = freshLiveState ∧
    freshLiveState.alertList = [] := by
  refine ⟨checkForAlerts_few _ _ (by simp [oneSampleState]),
    checkForAlerts_few _ _ (by simp [oneSampleState]), rfl, ?_, ?_, ?_, rfl⟩
  · exact live_below65_none _ _ _ _ (by norm_num) (by norm_num) (by norm_num)
  · rw [live_critical_falls_through _ _ _ _ (by norm_num) (by norm_num [drawsFirstThen])
      (by norm_num [drawsFirstThen])]
    rfl
  · exact live_warning_none _ _ _ _ (by norm_num) (by norm_num) (by norm_num)

/-- C12, amended. In analytics.js, once at least 5 samples are retained a latest value of 59
gives the CRITICAL text and 65 the WARNING text whatever the gate, and with fewer than 5
samples the evaluator changes nothing. In the live monitor a score of 59 gives the high alert
when the first gate passes, the medium alert when it fails and the next gate passes, and no
alert otherwise; a score of 65 gives the medium alert when its gate passes and no alert
otherwise. -/
theorem alert_rules_at_59_and_65 (s : AnalyticsState) (gate : ℚ) (p : Sample)
    (t : LiveState) (rnd : Nat → ℚ) (k : Nat) :
    (5 ≤ s.analyticsData.length → s.analyticsData.getLast? = some p →
      (p.value = 59 →
        (checkForAlerts s gate).alertSummary = "⚠️ CRITICAL: Fairness score below 60%") ∧
      (p.value = 65 →
        (checkForAlerts s gate).alertSummary = "⚠️ WARNING: Fairness score below 70%")) ∧
    (s.analyticsData.length < 5 → checkForAlerts s gate = s) ∧
    (rnd k > 0.5 → liveCheckForAlerts t 59 rnd k
      = withAlert t "Critical Bias Detected" (criticalMessage 59) Level.high true) ∧
    (¬ rnd k > 0.5 → rnd (k + 1) > 0.7 → liveCheckForAlerts t 59 rnd k
      = withAlert t "High Bias Warning" (warningMessage 59) Level.medium true) ∧
    (¬ rnd k > 0.5 → ¬ rnd (k + 1) > 0.7 → liveCheckForAlerts t 59 rnd k = t) ∧
    (rnd k > 0.7 → liveCheckForAlerts t 65 rnd k
      = withAlert t "High Bias Warning" (warningMessage 65) Level.medium true) ∧
    (¬ rnd k > 0.7 → liveCheckForAlerts t 65 rnd k = t) := by
  refine ⟨?_, checkForAlerts_few s gate, ?_, ?_, ?_, ?_, ?_⟩
  · intro h5 hlast
    rw [checkForAlerts_summary s gate p h5 hlast]
    constructor
    · intro h
      rw [h, if_pos (by norm_num)]
    · intro h
      rw [h, if_neg (by norm_num), if_pos (by norm_num)]
  · exact live_critical t 59 rnd k (by norm_num)
  · exact live_critical_falls_through t 59 rnd k (by norm_num)
  · exact live_below65_none t 59 rnd k (by norm_num)
  · exact live_warning t 65 rnd k (by norm_num) (by norm_num)
  · exact live_warning_none t 65 rnd k (by norm_num) (by norm_num)

/-- C12 amended, instance: five samples ending in 59, and a live score of 59 with all draws
at 9/10. -/
theorem alert_rules_at_59_and_65_witness :
    (checkForAlerts fiveSampleState59 0).alertSummary
      = "⚠️ CRITICAL: Fairness score below 60%" ∧
    liveCheckForAlerts freshLiveState 59 (fun _ => 9 / 10) 0
      = withAlert freshLiveState "Critical Bias Detected" (criticalMessage 59) Level.high true :=
  ⟨((alert_rules_at_59_and_65 fiveSampleState59 0 ⟨8000, 59, 50, 50⟩ freshLiveState
      (fun _ => 9 / 10) 0).1 (by simp [fiveSampleState59]) (by simp [fiveSampleState59])).1 rfl,
   (alert_rules_at_59_and_65 fiveSampleState59 0 ⟨8000, 59, 50, 50⟩ freshLiveState
      (fun _ => 9 / 10) 0).2.2.1 (by norm_num)⟩

/-- C13, as stated, fails in the live monitor: for a score of 60 (below 65) whose critical
gate fails (draw 3/10) and whose next draw is 9/10, the medium alert is emitted. -/
theorem live_lower_severity_after_failed_gate :
    (60 : ℚ) < 65 ∧
    (liveCheckForAlerts freshLiveState 60 (drawsFirstThen (3 / 10) (9 / 10)) 0).alertList
      = [ChildNode.alert ⟨"High Bias Warning", warningMessage 60, Level.medium⟩] ∧
    (liveCheckForAlerts freshLiveState 60 (drawsFirstThen (3 / 10) (9 / 10)) 0).alertCount
      = freshLiveState.alertCount + 1 := by
  rw [live_critical_falls_through _ _ _ _ (by norm_num) (by norm_num [drawsFirstThen])
    (by norm_num [drawsFirstThen])]
  exact ⟨by norm_num, rfl, rfl⟩

/-- C13, amended. In analytics.js, whenever latest < 60 the text set by the evaluator (five
samples retained) is the CRITICAL one, not the WARNING or MONITOR one, and with fewer samples
nothing is set. In the live monitor, whenever the score is below 65 and the critical gate
passes, the high alert is the one emitted; when that gate fails, the medium alert is emitted
if the next gate passes and nothing otherwise; the low alert is never emitted below 65. -/
theorem short_circuit_rules (s : AnalyticsState) (gate : ℚ) (p : Sample)
    (t : LiveState) (x : ℚ) (rnd : Nat → ℚ) (k : Nat) :
    (5 ≤ s.analyticsData.length → s.analyticsData.getLast? = some p → p.value < 60 →
      (checkForAlerts s gate).alertSummary = "⚠️ CRITICAL: Fairness score below 60%" ∧
      (checkForAlerts s gate).alertSummary ≠ "⚠️ WARNING: Fairness score below 70%" ∧
      (checkForAlerts s gate).alertSummary ≠ "⚠️ MONITOR: Average score trending low") ∧
    (s.analyticsData.length < 5 → checkForAlerts s gate = s) ∧
    (x < 65 → rnd k > 0.5 → liveCheckForAlerts t x rnd k
      = withAlert t "Critical Bias Detected" (criticalMessage x) Level.high true) ∧
    (x < 65 → ¬ rnd k > 0.5 → rnd (k + 1) > 0.7 → liveCheckForAlerts t x rnd k
      = withAlert t "High Bias Warning" (warningMessage x) Level.medium true) ∧
    (x < 65 → ¬ rnd k > 0.5 → ¬ rnd (k + 1) > 0.7 → liveCheckForAlerts t x rnd k = t) := by
  refine ⟨?_, checkForAlerts_few s gate, live_critical t x rnd k,
    live_critical_falls_through t x rnd k, live_below65_none t x rnd k⟩
  intro h5 hlast hlt
  rw [checkForAlerts_summary s gate p h5 hlast, if_pos hlt]
  exact ⟨rfl, by decide, by decide⟩

/-- C13 amended, instance: five samples ending in 59, and a live score of 60 whose critical
gate passes. -/
theorem short_circuit_rules_witness :
    ((checkForAlerts fiveSampleState59 (9 / 10)).alertSummary
        = "⚠️ CRITICAL: Fairness score below 60%" ∧
      (checkForAlerts fiveSampleState59 (9 / 10)).alertSummary
        ≠ "⚠️ WARNING: Fairness score below 70%" ∧
      (checkForAlerts fiveSampleState59 (9 / 10)).alertSummary
        ≠ "⚠️ MONITOR: Average score trending low") ∧
    liveCheckForAlerts freshLiveState 60 (fun _ => 9 / 10) 0
      = withAlert freshLiveState "Critical Bias Detected" (criticalMessage 60) Level.high true :=
  ⟨(short_circuit_rules fiveSampleState59 (9 / 10) ⟨8000, 59, 50, 50⟩ freshLiveState 60
      (fun _ => 9 / 10) 0).1 (by simp [fiveSampleState59]) (by simp [fiveSampleState59])
      (by norm_num),
   (short_circuit_rules fiveSampleState59 (9 / 10) ⟨8000, 59, 50, 50⟩ freshLiveState 60
      (fun _ => 9 / 10) 0).2.2.1 (by norm_num) (by norm_num)⟩

/-- C14. For every fairness score above 95, when the gate passes, the live-monitor
`checkForAlerts` makes exactly one `addAlert` call, with title 'Excellent Fairness' and level
low: the new item is the top of the alert list, the rest of the list is the old list (as
`addAlert` leaves it: unchanged while fewer than ten alert elements were held), and the
displayed count is unchanged. A score of 96 is such a case. -/
theorem live_excellent_alert (t : LiveState) (x : ℚ) (rnd : Nat → ℚ) (k : Nat)
    (hx : x > 95) (hgate : rnd k > 0.8) :
    liveCheckForAlerts t x rnd k
      = withAlert t "Excellent Fairness" (excellentMessage x) Level.low false ∧
    (liveCheckForAlerts t x rnd k).alertList
      = addAlert t.alertList "Excellent Fairness" (excellentMessage x) Level.low ∧
    (liveCheckForAlerts t x rnd k).alertList.head?
      = some (ChildNode.alert ⟨"Excellent Fairness", excellentMessage x, Level.low⟩) ∧
    (childrenLength t.alertList < 10 → (liveCheckForAlerts t x rnd k).alertList
      = ChildNode.alert ⟨"Excellent Fairness", excellentMessage x, Level.low⟩ :: t.alertList) ∧
    (liveCheckForAlerts t x rnd k).alertCount = t.alertCount := by
  rw [live_excellent t x rnd k hx hgate]
  refine ⟨rfl, rfl, addAlert_head _ _ _ _, ?_, rfl⟩
  intro h
  exact addAlert_short _ _ _ _ h

/-- C14, instance: a score of 96 with every draw at 9/10, on a page without alerts. -/
theorem live_excellent_alert_witness :
    liveCheckForAlerts freshLiveState 96 (fun _ => 9 / 10) 0
      = withAlert freshLiveState "Excellent Fairness" (excellentMessage 96) Level.low false ∧
    (liveCheckForAlerts freshLiveState 96 (fun _ => 9 / 10) 0).alertList
      = [ChildNode.alert ⟨"Excellent Fairness", excellentMessage 96, Level.low⟩] :=
  ⟨(live_excellent_alert freshLiveState 96 (fun _ => 9 / 10) 0 (by norm_num) (by norm_num)).1,
   (live_excellent_alert freshLiveState 96 (fun _ => 9 / 10) 0 (by norm_num)
      (by norm_num)).2.2.2.1 (by simp [freshLiveState, childrenLength])⟩

/-! ## Theorems: the bounded alert list -/

/-- One more `addAlert` call after a sequence of calls. -/
theorem addAlerts_append (alerts : List ChildNode) (items : List AlertItem) (a : AlertItem) :
    addAlerts alerts (items ++ [a]) = addAlert (addAlerts alerts items) a.title a.message a.level := by
  simp [addAlerts, List.foldl_append]

/-- A list of alert elements has as many element children as nodes. -/
theorem childrenLength_map_alert (l : List AlertItem) :
    childrenLength (l.map ChildNode.alert) = l.length := by
  induction l with
  | nil => rfl
  | cons a l ih =>
    rw [List.map_cons, childrenLength_cons_alert, ih, List.length_cons]

/-- The function `addAlert` on a container holding only alert elements, already cut to ten:
insert at the top, keep ten. -/
theorem addAlert_take (l : List AlertItem) (a : AlertItem) :
    addAlert ((l.take 10).map ChildNode.alert) a.title a.message a.level
      = ((a :: l).take 10).map ChildNode.alert := by
  unfold addAlert
  dsimp only
  rw [childrenLength_cons_alert, childrenLength_map_alert]
  by_cases h : l.length < 10
  · rw [if_neg (by simp; omega), List.take_of_length_le (by omega),
      List.take_of_length_le (by simp; omega)]
    rfl
  · rw [if_pos (by simp; omega), List.dropLast_eq_take]
    have e : (ChildNode.alert { title := a.title, message := a.message, level := a.level }
        :: List.map ChildNode.alert (List.take 10 l)).length - 1 = 10 := by
      simp
      omega
    rw [e]
    simp [List.take_take, ← List.map_take]

/-- From a container without any child node, the alert list after any sequence of `addAlert`
calls holds the ten most recent items, newest first. -/
theorem addAlerts_nil_eq (items : List AlertItem) :
    addAlerts [] items = (items.reverse.take 10).map ChildNode.alert := by
  induction items using List.reverseRecOn with
  | nil => simp [addAlerts]
  | append_singleton xs x ih =>
    rw [addAlerts_append, ih, addAlert_take]
    simp

/-- C15, the code at the failing input. In a container whose only child is a whitespace text
node, the eleventh `addAlert` call removes that text node, not an alert: all 11 alerts are
retained, newest first, and after the twelfth call 11 alerts are still retained, although the
code's comment says 'Limit to 10 alerts'. -/
theorem alert_list_keeps_eleven :
    childrenLength [ChildNode.text] = 0 ∧
    addAlerts [ChildNode.text] (numberedAlerts 11)
      = (numberedAlerts 11).reverse.map ChildNode.alert ∧
    childrenLength (addAlerts [ChildNode.text] (numberedAlerts 11)) = 11 ∧
    addAlerts [ChildNode.text] (numberedAlerts 12)
      = ((numberedAlerts 12).reverse.take 11).map ChildNode.alert ∧
    childrenLength (addAlerts [ChildNode.text] (numberedAlerts 12)) = 11 := by
  refine ⟨rfl, ?_, ?_, ?_, ?_⟩ <;> decide

/-! ## Theorems: CSV export -/

/-- The text of `toFixed` for a non-negative value, from its rounded scaled integer. -/
theorem toFixed_of_floor (x : ℚ) (f n : Nat) (hx : ¬ x < 0)
    (hn : Int.floor (|x| * (10 : ℚ) ^ f + 1 / 2) = (n : Int)) :
    toFixed x f = fixedDigits n f := by
  unfold toFixed fixedDigits
  simp only [hn, Int.toNat_ofNat, if_neg hx, String.empty_append]

/-- Appending a list of strings to a start text. -/
theorem foldl_append_start (l : List String) :
    ∀ start : String, l.foldl (fun r s => r ++ s) start = start ++ String.join l := by
  induction l with
  | nil =>
    intro start
    simp [String.join]
  | cons a l ih =>
    intro start
    have h1 := ih (start ++ a)
    have h2 := ih ("" ++ a)
    simp only [String.join, List.foldl_cons] at *
    rw [h1, h2, String.empty_append, String.append_assoc]

/-- The loop of `downloadCSV` appends the rows, each followed by a newline, in order. -/
theorem csv_loop (toISOString : Int → String) (data : List Sample) :
    ∀ start : String,
      data.foldl (fun csv point => csv ++ (csvRow toISOString point ++ "\n")) start
        = start ++ String.join (data.map (fun point => csvRow toISOString point ++ "\n")) := by
  induction data with
  | nil =>
    intro start
    simp [String.join]
  | cons p ps ih =>
    intro start
    rw [List.foldl_cons, ih, List.map_cons]
    have h := foldl_append_start
      (ps.map (fun point => csvRow toISOString point ++ "\n"))
      ("" ++ (csvRow toISOString p ++ "\n"))
    simp only [String.join, List.foldl_cons] at *
    rw [h, String.empty_append, String.append_assoc]

/-- C16. For every buffer, the text built by `downloadCSV` is its `data:` marker followed by
the header line and exactly one newline-terminated row per retained sample, in buffer order;
the five comma-separated fields of a row are the ISO timestamp, value, 100 - value, maleRate
and femaleRate, each number with 2 decimals; rows of samples with values 85 and 70.5 begin
`t,85.00,15.00,` and `t,70.50,29.50,`. -/
theorem csv_export (toISOString : Int → String) (data : List Sample) :
    csvContent toISOString data
      = "data:text/csv;charset=utf-8,"
        ++ (csvHeader ++ "\n")
        ++ String.join (data.map (fun point => csvRow toISOString point ++ "\n")) ∧
    csvHeader = "Timestamp,Fairness Score (%),Bias Score (%),Male Rate (%),Female Rate (%)" ∧
    (∀ p : Sample, csvRow toISOString p
      = toISOString p.timestamp ++ "," ++ toFixed p.value 2 ++ ","
        ++ toFixed (100 - p.value) 2 ++ "," ++ toFixed p.maleRate 2 ++ ","
        ++ toFixed p.femaleRate 2) ∧
    (∀ (t : Int) (m f : ℚ), csvRow toISOString ⟨t, 85, m, f⟩
      = toISOString t ++ "," ++ "85.00" ++ "," ++ "15.00" ++ "," ++ toFixed m 2 ++ ","
        ++ toFixed f 2) ∧
    (∀ (t : Int) (m f : ℚ), csvRow toISOString ⟨t, 141 / 2, m, f⟩
      = toISOString t ++ "," ++ "70.50" ++ "," ++ "29.50" ++ "," ++ toFixed m 2 ++ ","
        ++ toFixed f 2) := by
  have hrow : ∀ p : Sample, csvRow toISOString p
      = toISOString p.timestamp ++ "," ++ toFixed p.value 2 ++ ","
        ++ toFixed (100 - p.value) 2 ++ "," ++ toFixed p.maleRate 2 ++ ","
        ++ toFixed p.femaleRate 2 := by
    intro p
    rfl
  have h85 : toFixed 85 2 = "85.00" := by
    rw [toFixed_of_floor 85 2 8500 (by norm_num) (by
      rw [Int.floor_eq_iff]
      constructor <;> norm_num [abs_of_nonneg])]
    decide
  have h15 : toFixed (100 - 85) 2 = "15.00" := by
    rw [toFixed_of_floor _ 2 1500 (by norm_num) (by
      rw [Int.floor_eq_iff]
      constructor <;> norm_num [abs_of_nonneg])]
    decide
  have h70 : toFixed (141 / 2) 2 = "70.50" := by
    rw [toFixed_of_floor _ 2 7050 (by norm_num) (by
      rw [Int.floor_eq_iff]
      constructor <;> norm_num [abs_of_nonneg])]
    decide
  have h29 : toFixed (100 - 141 / 2) 2 = "29.50" := by
    rw [toFixed_of_floor _ 2 2950 (by norm_num) (by
      rw [Int.floor_eq_iff]
      constructor <;> norm_num [abs_of_nonneg])]
    decide
  refine ⟨?_, rfl, hrow, ?_, ?_⟩
  · unfold csvContent
    rw [csv_loop]
  · intro t m f
    rw [hrow, h85, h15]
  · intro t m f
    rw [hrow, h70, h29]

/-! ## Theorems: pausing -/

/-- The pause toggle does not touch the buffer, and toggling twice restores the state. -/
theorem togglePause_twice (s : AnalyticsState) :
    (togglePause s).analyticsData = s.analyticsData ∧ togglePause (togglePause s) = s := by
  refine ⟨rfl, ?_⟩
  unfold togglePause
  cases s with
  | mk d p r l c t st a => simp

/-- Timer ticks change nothing while paused. -/
theorem run_paused_ticks (evs : List AnalyticsEvent) :
    ∀ s : AnalyticsState, s.isPaused = true → (∀ e ∈ evs, e.isTick = true) →
      runAnalytics s evs = s := by
  induction evs with
  | nil =>
    intro s _ _
    rfl
  | cons e es ih =>
    intro s hp hticks
    have he : e.apply s = s := by
      cases e with
      | tick tPush tCut rnd => exact updateAnalyticsData_paused s tPush tCut rnd hp
      | rangeClick range now =>
        have := hticks (AnalyticsEvent.rangeClick range now) (List.mem_cons_self _ _)
        simp [AnalyticsEvent.isTick] at this
      | pauseClick =>
        have := hticks AnalyticsEvent.pauseClick (List.mem_cons_self _ _)
        simp [AnalyticsEvent.isTick] at this
      | slider level =>
        have := hticks (AnalyticsEvent.slider level) (List.mem_cons_self _ _)
        simp [AnalyticsEvent.isTick] at this
    have hrest := ih s hp (fun e' he' => hticks e' (List.mem_cons_of_mem _ he'))
    simpa [runAnalytics, he] using hrest

/-- C17. For every state with `isPaused = true`, a tick changes nothing: the whole state, and
so `analyticsData`, the trend series, the statistics and the alert text, is identical before
and after; no sample is pushed. -/
theorem paused_tick_changes_nothing (s : AnalyticsState) (tPush tCut : Int) (rnd : Nat → ℚ)
    (hpaused : s.isPaused = true) :
    updateAnalyticsData s tPush tCut rnd = s ∧
    (updateAnalyticsData s tPush tCut rnd).analyticsData = s.analyticsData ∧
    (updateAnalyticsData s tPush tCut rnd).trendLine = s.trendLine ∧
    (updateAnalyticsData s tPush tCut rnd).alertSummary = s.alertSummary ∧
    (AnalyticsEvent.tick tPush tCut rnd).pushed s = [] := by
  have h : updateAnalyticsData s tPush tCut rnd = s := by
    unfold updateAnalyticsData
    rw [if_pos hpaused]
  rw [h]
  refine ⟨rfl, rfl, rfl, rfl, ?_⟩
  simp [AnalyticsEvent.pushed, hpaused]

/-- C17, instance: a tick on the paused two-sample state. -/
theorem paused_tick_changes_nothing_witness :
    updateAnalyticsData (togglePause twoSampleState) 4000 4000 (fun _ => 1 / 2)
      = togglePause twoSampleState ∧
    (updateAnalyticsData (togglePause twoSampleState) 4000 4000 (fun _ => 1 / 2)).analyticsData
      = twoSampleState.analyticsData :=
  ⟨(paused_tick_changes_nothing (togglePause twoSampleState) 4000 4000 (fun _ => 1 / 2) rfl).1,
   (paused_tick_changes_nothing (togglePause twoSampleState) 4000 4000 (fun _ => 1 / 2) rfl).2.1⟩

/-- C18, as stated, fails: the two samples retained when the session is paused (range 30 s)
are both gone after a pause of a minute, a resume and the next tick at 62000 ms; only the new
sample is retained. -/
theorem long_pause_evicts :
    twoSampleState.analyticsData = [⟨0, 85, 50, 50⟩, ⟨2000, 86, 51, 49⟩] ∧
    (runAnalytics twoSampleState
      [AnalyticsEvent.pauseClick, AnalyticsEvent.tick 4000 4000 (fun _ => 1 / 2),
        AnalyticsEvent.pauseClick,
        AnalyticsEvent.tick 62000 62000 (fun _ => 1 / 2)]).analyticsData
      = [newSample twoSampleState.analyticsData 62000 (fun _ => 1 / 2)] ∧
    (⟨0, 85, 50, 50⟩ : Sample) ∉ (runAnalytics twoSampleState
      [AnalyticsEvent.pauseClick, AnalyticsEvent.tick 4000 4000 (fun _ => 1 / 2),
        AnalyticsEvent.pauseClick,
        AnalyticsEvent.tick 62000 62000 (fun _ => 1 / 2)]).analyticsData := by
  have hrun : (runAnalytics twoSampleState
      [AnalyticsEvent.pauseClick, AnalyticsEvent.tick 4000 4000 (fun _ => 1 / 2),
        AnalyticsEvent.pauseClick,
        AnalyticsEvent.tick 62000 62000 (fun _ => 1 / 2)]).analyticsData
      = [newSample twoSampleState.analyticsData 62000 (fun _ => 1 / 2)] := by
    simp only [runAnalytics, List.foldl_cons, List.foldl_nil, AnalyticsEvent.apply]
    rw [updateAnalyticsData_paused (togglePause twoSampleState) 4000 4000 _ rfl,
      (togglePause_twice twoSampleState).2,
      updateAnalyticsData_data twoSampleState 62000 62000 _ rfl,
      pushAndFilter_last twoSampleState 62000 62000 _ (by decide)]
    simp [filterWindow, twoSampleState, AnalyticsState.initial]
  refine ⟨rfl, hrun, ?_⟩
  rw [hrun]
  simp [newSample]

/-- C18, amended. Pausing, any number of ticks during the pause, and resuming leave the state
as it was; after the next tick the buffer is the filter of the old buffer followed by the new
sample, so the previously retained samples still retained are those with
timestamp >= now - range * 1000 ms, unchanged and in order, and all of them are still retained
(followed only by the new sample) when each of them lies inside the window at that tick. -/
theorem pause_resume_retains (s : AnalyticsState) (ticks : List AnalyticsEvent)
    (tPush tCut : Int) (rnd : Nat → ℚ)
    (hrun : s.isPaused = false) (hticks : ∀ e ∈ ticks, e.isTick = true) :
    runAnalytics s (AnalyticsEvent.pauseClick :: ticks ++ [AnalyticsEvent.pauseClick]) = s ∧
    (runAnalytics s (AnalyticsEvent.pauseClick :: ticks ++
        [AnalyticsEvent.pauseClick, AnalyticsEvent.tick tPush tCut rnd])).analyticsData
      = filterWindow s.analyticsData tCut s.currentTimeRange
        ++ filterWindow [newSample s.analyticsData tPush rnd] tCut s.currentTimeRange ∧
    ((∀ p ∈ s.analyticsData, p.timestamp ≥ tCut - s.currentTimeRange * 1000) →
      (runAnalytics s (AnalyticsEvent.pauseClick :: ticks ++
          [AnalyticsEvent.pauseClick, AnalyticsEvent.tick tPush tCut rnd])).analyticsData
        = s.analyticsData
          ++ filterWindow [newSample s.analyticsData tPush rnd] tCut s.currentTimeRange) := by
  have hpaused : (togglePause s).isPaused = true := by simp [togglePause, hrun]
  have h1 : runAnalytics s (AnalyticsEvent.pauseClick :: ticks ++ [AnalyticsEvent.pauseClick])
      = s := by
    have := run_paused_ticks ticks (togglePause s) hpaused hticks
    simp only [runAnalytics] at this
    simp only [runAnalytics, List.foldl_cons, List.foldl_append, List.foldl_nil,
      AnalyticsEvent.apply, this]
    exact (togglePause_twice s).2
  have h2 : (runAnalytics s (AnalyticsEvent.pauseClick :: ticks ++
        [AnalyticsEvent.pauseClick, AnalyticsEvent.tick tPush tCut rnd])).analyticsData
      = filterWindow s.analyticsData tCut s.currentTimeRange
        ++ filterWindow [newSample s.analyticsData tPush rnd] tCut s.currentTimeRange := by
    have e : runAnalytics s (AnalyticsEvent.pauseClick :: ticks ++
          [AnalyticsEvent.pauseClick, AnalyticsEvent.tick tPush tCut rnd])
        = updateAnalyticsData
            (runAnalytics s (AnalyticsEvent.pauseClick :: ticks ++ [AnalyticsEvent.pauseClick]))
            tPush tCut rnd := by
      simp [runAnalytics, List.foldl_append, AnalyticsEvent.apply]
    rw [e, h1, updateAnalyticsData_data s tPush tCut rnd hrun]
    unfold pushAndFilter filterWindow
    rw [List.filter_append]
  refine ⟨h1, h2, ?_⟩
  intro hall
  rw [h2]
  congr 1
  unfold filterWindow
  rw [List.filter_eq_self]
  intro p hp
  simpa using hall p hp

/-- C18 amended, instance: the two-sample state, paused over one tick and resumed, then a tick
at 20000 ms, inside the 30 s window of both samples. -/
theorem pause_resume_retains_witness :
    runAnalytics twoSampleState
      (AnalyticsEvent.pauseClick :: [AnalyticsEvent.tick 4000 4000 (fun _ => 1 / 2)]
        ++ [AnalyticsEvent.pauseClick]) = twoSampleState ∧
    (runAnalytics twoSampleState
      (AnalyticsEvent.pauseClick :: [AnalyticsEvent.tick 4000 4000 (fun _ => 1 / 2)] ++
        [AnalyticsEvent.pauseClick,
          AnalyticsEvent.tick 20000 20000 (fun _ => 1 / 2)])).analyticsData
      = twoSampleState.analyticsData
        ++ filterWindow [newSample twoSampleState.analyticsData 20000 (fun _ => 1 / 2)]
            20000 twoSampleState.currentTimeRange :=
  ⟨(pause_resume_retains twoSampleState [AnalyticsEvent.tick 4000 4000 (fun _ => 1 / 2)]
      20000 20000 (fun _ => 1 / 2) rfl (by simp [AnalyticsEvent.isTick])).1,
   (pause_resume_retains twoSampleState [AnalyticsEvent.tick 4000 4000 (fun _ => 1 / 2)]
      20000 20000 (fun _ => 1 / 2) rfl (by simp [AnalyticsEvent.isTick])).2.2
      (by simp [twoSampleState, AnalyticsState.initial])⟩

/-! ## Theorems: the range of generated values -/

/-- The analytics generator keeps a value of `[60, 100]` in `[60, 100]`. -/
theorem generateValue_range (last : ℚ) (rnd : Nat → ℚ) (hrnd : UnitRandom rnd)
    (h1 : 60 ≤ last) (h2 : last ≤ 100) :
    60 ≤ (generateValue last rnd).1 ∧ (generateValue last rnd).1 ≤ 100 := by
  have r1 := (hrnd 1).1
  have r2 := (hrnd 2).1
  unfold generateValue
  split_ifs
  · exact ⟨le_max_left _ _, max_le (by norm_num) (by linarith)⟩
  · exact ⟨le_min (by norm_num) (by linarith), min_le_left _ _⟩
  · exact ⟨le_min (by norm_num) (le_max_left _ _), min_le_left _ _⟩

/-- The live generator keeps a value of `[60, 100]` in `[60, 100]`. -/
theorem generateBias_range (last : ℚ) (rnd : Nat → ℚ) (hrnd : UnitRandom rnd)
    (h1 : 60 ≤ last) (h2 : last ≤ 100) :
    60 ≤ (generateBias last rnd).1 ∧ (generateBias last rnd).1 ≤ 100 := by
  have r1 := (hrnd 1).1
  have r2 := (hrnd 2).1
  unfold generateBias
  split_ifs
  · exact ⟨le_max_left _ _, max_le (by norm_num) (by linarith)⟩
  · exact ⟨le_min (by norm_num) (by linarith), min_le_left _ _⟩
  · exact ⟨le_min (by norm_num) (le_max_left _ _), min_le_left _ _⟩

/-- The previous value used by a tick of the analytics page lies in `[60, 100]` when the
buffer does. -/
theorem lastValueOr_range (data : List Sample)
    (h : ∀ p ∈ data, 60 ≤ p.value ∧ p.value ≤ 100) :
    60 ≤ lastValueOr data 85 ∧ lastValueOr data 85 ≤ 100 := by
  unfold lastValueOr
  cases hl : data.getLast? with
  | none => norm_num
  | some p => exact h p (List.mem_of_getLast?_eq_some hl)

/-- The previous value used by a tick of the live monitor lies in `[60, 100]` when the buffer
does. -/
theorem lastPointOr_range (points : List ℚ) (h : ∀ v ∈ points, 60 ≤ v ∧ v ≤ 100) :
    60 ≤ lastPointOr points 100 ∧ lastPointOr points 100 ≤ 100 := by
  unfold lastPointOr
  cases hl : points.getLast? with
  | none => norm_num
  | some v => exact h v (List.mem_of_getLast?_eq_some hl)

/-- One event of the analytics page keeps all buffered values in `[60, 100]`. -/
theorem apply_range (s : AnalyticsState) (e : AnalyticsEvent) (he : e.unitRandom)
    (h : ∀ p ∈ s.analyticsData, 60 ≤ p.value ∧ p.value ≤ 100) :
    ∀ p ∈ (e.apply s).analyticsData, 60 ≤ p.value ∧ p.value ≤ 100 := by
  rw [apply_data]
  cases e with
  | tick tPush tCut rnd =>
    cases hp : s.isPaused with
    | true => simpa using h
    | false =>
      intro p hmem
      simp only [Bool.false_eq_true, if_false, pushAndFilter] at hmem
      have hm := (filterWindow_mem _ _ _ p hmem).1
      rw [List.mem_append, List.mem_singleton] at hm
      rcases hm with hm | hm
      · exact h p hm
      · subst hm
        have hl := lastValueOr_range s.analyticsData h
        exact generateValue_range _ rnd he hl.1 hl.2
  | rangeClick range now =>
    intro p hmem
    exact h p (filterWindow_mem _ _ _ p hmem).1
  | pauseClick => exact h
  | slider level => exact h

/-- Along a run of the analytics page all buffered values stay in `[60, 100]`. -/
theorem run_range (evs : List AnalyticsEvent) :
    ∀ s : AnalyticsState, (∀ e ∈ evs, e.unitRandom) →
      (∀ p ∈ s.analyticsData, 60 ≤ p.value ∧ p.value ≤ 100) →
      ∀ p ∈ (runAnalytics s evs).analyticsData, 60 ≤ p.value ∧ p.value ≤ 100 := by
  induction evs with
  | nil =>
    intro s _ h
    simpa [runAnalytics] using h
  | cons e es ih =>
    intro s hevs h
    have h1 := apply_range s e (hevs e (List.mem_cons_self _ _)) h
    have h2 := ih (e.apply s) (fun e' he' => hevs e' (List.mem_cons_of_mem _ he')) h1
    simpa [runAnalytics] using h2

/-- The buffer of the live monitor after any event, in terms of the buffer before. -/
theorem live_apply_points (t : LiveState) (e : LiveEvent) :
    (e.apply t).liveDataPoints =
      match e with
      | .start => t.liveDataPoints
      | .connect => []
      | .tick rnd =>
        if t.isMonitoring then
          pushShift t.liveDataPoints (generateBias (lastPointOr t.liveDataPoints 100) rnd).1
        else t.liveDataPoints
      | .stop => t.liveDataPoints
      | .test => t.liveDataPoints := by
  cases e with
  | start =>
    simp only [LiveEvent.apply, startMonitoring]
    split <;> rfl
  | connect => rfl
  | tick rnd =>
    simp only [LiveEvent.apply]
    cases hm : t.isMonitoring with
    | true => rw [updateLiveData_points t rnd hm]; simp
    | false => simp [updateLiveData, hm]
  | stop =>
    simp only [LiveEvent.apply, stopMonitoring]
    split <;> rfl
  | test => rfl

/-- One event of the live page keeps all buffered values in `[60, 100]`. -/
theorem live_apply_range (t : LiveState) (e : LiveEvent) (he : e.unitRandom)
    (h : ∀ v ∈ t.liveDataPoints, 60 ≤ v ∧ v ≤ 100) :
    ∀ v ∈ (e.apply t).liveDataPoints, 60 ≤ v ∧ v ≤ 100 := by
  rw [live_apply_points]
  cases e with
  | start => exact h
  | connect =>
    intro v hv
    simp at hv
  | tick rnd =>
    cases hm : t.isMonitoring with
    | false => simpa using h
    | true =>
      intro v hv
      simp only [if_true] at hv
      have hm' := (pushShift_suffix _ _).subset hv
      rw [List.mem_append, List.mem_singleton] at hm'
      rcases hm' with hm' | hm'
      · exact h v hm'
      · subst hm'
        have hl := lastPointOr_range t.liveDataPoints h
        exact generateBias_range _ rnd he hl.1 hl.2
  | stop => exact h
  | test => exact h

/-- Along a run of the live page all buffered values stay in `[60, 100]`. -/
theorem live_run_range (evs : List LiveEvent) :
    ∀ t : LiveState, (∀ e ∈ evs, e.unitRandom) →
      (∀ v ∈ t.liveDataPoints, 60 ≤ v ∧ v ≤ 100) →
      ∀ v ∈ (runLive t evs).liveDataPoints, 60 ≤ v ∧ v ≤ 100 := by
  induction evs with
  | nil =>
    intro t _ h
    simpa [runLive] using h
  | cons e es ih =>
    intro t hevs h
    have h1 := live_apply_range t e (hevs e (List.mem_cons_self _ _)) h
    have h2 := ih (e.apply t) (fun e' he' => hevs e' (List.mem_cons_of_mem _ he')) h1
    simpa [runLive] using h2

/-- C19. For every tick of either generator and every result of `Math.random` in `[0, 1)`, a
previous value in `[60, 100]` (the defaults 85 and 100 are such values) gives a new value in
`[60, 100]`; hence along every run of either page from a buffer with values in `[60, 100]`,
in particular from the empty buffer, every stored value lies in `[60, 100]` and so in
`[0, 100]`. -/
theorem sample_values_in_range (last lastLive : ℚ) (rnd rndLive : Nat → ℚ)
    (s : AnalyticsState) (evs : List AnalyticsEvent) (t : LiveState) (levs : List LiveEvent)
    (hrnd : UnitRandom rnd) (hrndLive : UnitRandom rndLive)
    (hlast : 60 ≤ last ∧ last ≤ 100) (hlastLive : 60 ≤ lastLive ∧ lastLive ≤ 100)
    (hs : ∀ p ∈ s.analyticsData, 60 ≤ p.value ∧ p.value ≤ 100)
    (hevs : ∀ e ∈ evs, e.unitRandom)
    (ht : ∀ v ∈ t.liveDataPoints, 60 ≤ v ∧ v ≤ 100)
    (hlevs : ∀ e ∈ levs, e.unitRandom) :
    (60 ≤ (generateValue last rnd).1 ∧ (generateValue last rnd).1 ≤ 100) ∧
    (60 ≤ (generateBias lastLive rndLive).1 ∧ (generateBias lastLive rndLive).1 ≤ 100) ∧
    ((60 : ℚ) ≤ 85 ∧ (85 : ℚ) ≤ 100 ∧ (60 : ℚ) ≤ 100) ∧
    (∀ p ∈ (runAnalytics s evs).analyticsData,
      (60 ≤ p.value ∧ p.value ≤ 100) ∧ (0 ≤ p.value ∧ p.value ≤ 100)) ∧
    (∀ v ∈ (runLive t levs).liveDataPoints, (60 ≤ v ∧ v ≤ 100) ∧ (0 ≤ v ∧ v ≤ 100)) := by
  refine ⟨generateValue_range last rnd hrnd hlast.1 hlast.2,
    generateBias_range lastLive rndLive hrndLive hlastLive.1 hlastLive.2,
    by norm_num, ?_, ?_⟩
  · intro p hp
    have h := run_range evs s hevs hs p hp
    exact ⟨h, by linarith [h.1], h.2⟩
  · intro v hv
    have h := live_run_range levs t hlevs ht v hv
    exact ⟨h, by linarith [h.1], h.2⟩

/-- C19, instance: previous values 85 and 100 with every draw at 1/2, and runs of both pages
from their empty buffers. -/
theorem sample_values_in_range_witness :
    (60 ≤ (generateValue 85 (fun _ => 1 / 2)).1 ∧ (generateValue 85 (fun _ => 1 / 2)).1 ≤ 100) ∧
    (60 ≤ (generateBias 100 (fun _ => 1 / 2)).1 ∧ (generateBias 100 (fun _ => 1 / 2)).1 ≤ 100) ∧
    (∀ p ∈ (runAnalytics AnalyticsState.initial
        [AnalyticsEvent.tick 0 0 (fun _ => 1 / 2), AnalyticsEvent.rangeClick 10 1000,
          AnalyticsEvent.tick 2000 2000 (fun _ => 9 / 10)]).analyticsData,
      (60 ≤ p.value ∧ p.value ≤ 100) ∧ (0 ≤ p.value ∧ p.value ≤ 100)) ∧
    (∀ v ∈ (runLive freshLiveState
        [LiveEvent.tick (fun _ => 9 / 10), LiveEvent.test,
          LiveEvent.tick (fun _ => 1 / 2)]).liveDataPoints,
      (60 ≤ v ∧ v ≤ 100) ∧ (0 ≤ v ∧ v ≤ 100)) :=
  have h := sample_values_in_range 85 100 (fun _ => 1 / 2) (fun _ => 1 / 2)
    AnalyticsState.initial
    [AnalyticsEvent.tick 0 0 (fun _ => 1 / 2), AnalyticsEvent.rangeClick 10 1000,
      AnalyticsEvent.tick 2000 2000 (fun _ => 9 / 10)]
    freshLiveState
    [LiveEvent.tick (fun _ => 9 / 10), LiveEvent.test, LiveEvent.tick (fun _ => 1 / 2)]
    (by intro k; norm_num) (by intro k; norm_num) (by norm_num) (by norm_num)
    (by simp [AnalyticsState.initial])
    (by simp [AnalyticsEvent.unitRandom, UnitRandom]; norm_num)
    (by simp [freshLiveState])
    (by simp [LiveEvent.unitRandom, UnitRandom]; norm_num)
  ⟨h.1, h.2.1, h.2.2.2.1, h.2.2.2.2⟩

/-! ## Theorems: restarting the live monitor -/

/-- The alert check of the live monitor does not touch the monitoring flag. -/
theorem liveCheckForAlerts_monitoring (s : LiveState) (score : ℚ) (rnd : Nat → ℚ) (k : Nat) :
    (liveCheckForAlerts s score rnd k).isMonitoring = s.isMonitoring := by
  unfold liveCheckForAlerts
  dsimp only
  split_ifs <;> rfl

/-- A tick leaves the monitoring flag as it was. -/
theorem updateLiveData_monitoring (s : LiveState) (rnd : Nat → ℚ) :
    (updateLiveData s rnd).isMonitoring = s.isMonitoring := by
  unfold updateLiveData
  split
  · rfl
  · rw [liveCheckForAlerts_monitoring]

/-- While monitoring, a sequence of ticks generates one value per tick and leaves in the
buffer the result of pushing these values in turn. -/
theorem runTicks_points (rnds : List (Nat → ℚ)) :
    ∀ u : LiveState, u.isMonitoring = true →
      (runTicks u rnds).liveDataPoints = pushAll u.liveDataPoints (liveGenerated u rnds) ∧
      (liveGenerated u rnds).length = rnds.length ∧
      (runTicks u rnds).isMonitoring = true := by
  induction rnds with
  | nil =>
    intro u hu
    exact ⟨by simp [runTicks, liveGenerated, pushAll], by simp [liveGenerated], by simpa [runTicks] using hu⟩
  | cons r rs ih =>
    intro u hu
    have hu' : (updateLiveData u r).isMonitoring = true := by
      rw [updateLiveData_monitoring, hu]
    obtain ⟨h1, h2, h3⟩ := ih (updateLiveData u r) hu'
    refine ⟨?_, ?_, ?_⟩
    · have e : runTicks u (r :: rs) = runTicks (updateLiveData u r) rs := rfl
      rw [e, h1, updateLiveData_points u r hu]
      simp [liveGenerated, hu, pushAll]
    · simp [liveGenerated, hu, h2]
    · exact h3

/-- C20. Whatever `liveDataPoints` holds from an earlier session, the connect step of
`startMonitoring` resets it to the empty list (the state after it does not depend on the old
buffer), and monitoring is on; after `k` ticks of the new session `k` values have been
generated and the buffer holds exactly the last `min(k, 15)` of them, oldest first. -/
theorem restart_clears_buffer (s : LiveState) (old : List ℚ) (rnds : List (Nat → ℚ))
    (hstopped : s.isMonitoring = false) :
    (connectStep (startMonitoring s)).liveDataPoints = [] ∧
    (connectStep (startMonitoring s)).isMonitoring = true ∧
    connectStep (startMonitoring { s with liveDataPoints := old })
      = connectStep (startMonitoring s) ∧
    (liveGenerated (connectStep (startMonitoring s)) rnds).length = rnds.length ∧
    (runTicks (connectStep (startMonitoring s)) rnds).liveDataPoints
      = (liveGenerated (connectStep (startMonitoring s)) rnds).drop
          (rnds.length - min rnds.length 15) ∧
    (runTicks (connectStep (startMonitoring s)) rnds).liveDataPoints.length
      = min rnds.length 15 := by
  have hmon : (connectStep (startMonitoring s)).isMonitoring = true := by
    simp [connectStep, startMonitoring, hstopped]
  have hnil : (connectStep (startMonitoring s)).liveDataPoints = [] := rfl
  obtain ⟨h1, h2, _⟩ := runTicks_points rnds (connectStep (startMonitoring s)) hmon
  have h3 : (runTicks (connectStep (startMonitoring s)) rnds).liveDataPoints
      = (liveGenerated (connectStep (startMonitoring s)) rnds).drop
          (rnds.length - min rnds.length 15) := by
    rw [h1, hnil, pushAll_nil_eq, h2]
  refine ⟨hnil, hmon, ?_, h2, h3, ?_⟩
  · simp [connectStep, startMonitoring, hstopped]
  · rw [h3, List.length_drop, h2]
    omega

/-- C20, instance: a stopped page still holding two values is restarted and ticks three
times. -/
theorem restart_clears_buffer_witness :
    (connectStep (startMonitoring (stopMonitoring twoPointState))).liveDataPoints = [] ∧
    (runTicks (connectStep (startMonitoring (stopMonitoring twoPointState)))
      [fun _ => 1 / 2, fun _ => 9 / 10, fun _ => 1 / 2]).liveDataPoints.length = min 3 15 :=
  ⟨(restart_clears_buffer (stopMonitoring twoPointState) []
      [fun _ => 1 / 2, fun _ => 9 / 10, fun _ => 1 / 2] rfl).1,
   (restart_clears_buffer (stopMonitoring twoPointState) []
      [fun _ => 1 / 2, fun _ => 9 / 10, fun _ => 1 / 2] rfl).2.2.2.2.2⟩

/-! ## Theorems: the analyze handler -/

/-- C21. When `handleAnalyzeClick` runs with no file selected and no analysis in progress, it
shows the warning notification and returns: nothing else changes, so `isAnalyzing` stays
false, no request is issued and the loading state is not entered. -/
theorem analyze_without_file (s : AppState)
    (hidle : s.isAnalyzing = false) (hnone : s.selectedFiles = 0) :
    handleAnalyzeClick s = showNotification s "Please select a CSV file first!" "warning" ∧
    (handleAnalyzeClick s).notification = some ⟨"Please select a CSV file first!", "warning"⟩ ∧
    (handleAnalyzeClick s).isAnalyzing = false ∧
    (handleAnalyzeClick s).requests = s.requests ∧
    (handleAnalyzeClick s).loadingShown = s.loadingShown ∧
    (handleAnalyzeClick s).analyzeDisabled = s.analyzeDisabled := by
  have h : handleAnalyzeClick s
      = showNotification s "Please select a CSV file first!" "warning" := by
    unfold handleAnalyzeClick
    rw [if_neg (by simp [hidle]), if_pos hnone]
  rw [h]
  exact ⟨rfl, rfl, hidle, rfl, rfl, rfl⟩

/-- C21, instance: a click on the freshly loaded page. -/
theorem analyze_without_file_witness :
    handleAnalyzeClick AppState.initial
      = showNotification AppState.initial "Please select a CSV file first!" "warning" ∧
    (handleAnalyzeClick AppState.initial).requests = [] ∧
    (handleAnalyzeClick AppState.initial).loadingShown = false :=
  ⟨(analyze_without_file AppState.initial rfl rfl).1,
   (analyze_without_file AppState.initial rfl rfl).2.2.2.1,
   (analyze_without_file AppState.initial rfl rfl).2.2.2.2.1⟩

/-! ## Theorems: the critical rule of the live monitor -/

/-- C23. For every fairness score below 65 whose first gate passes (`Math.random() > 0.5`),
the live-monitor `checkForAlerts` makes exactly one `addAlert` call, with title
'Critical Bias Detected' and level high: the new item is the top of the alert list, the rest
is the old list (as `addAlert` leaves it: unchanged while fewer than ten alert elements were
held), and the displayed alert count grows by exactly 1. -/
theorem live_critical_alert (t : LiveState) (x : ℚ) (rnd : Nat → ℚ) (k : Nat)
    (hx : x < 65) (hgate : rnd k > 0.5) :
    liveCheckForAlerts t x rnd k
      = withAlert t "Critical Bias Detected" (criticalMessage x) Level.high true ∧
    (liveCheckForAlerts t x rnd k).alertList
      = addAlert t.alertList "Critical Bias Detected" (criticalMessage x) Level.high ∧
    (liveCheckForAlerts t x rnd k).alertList.head?
      = some (ChildNode.alert ⟨"Critical Bias Detected", criticalMessage x, Level.high⟩) ∧
    (childrenLength t.alertList < 10 → (liveCheckForAlerts t x rnd k).alertList
      = ChildNode.alert ⟨"Critical Bias Detected", criticalMessage x, Level.high⟩
        :: t.alertList) ∧
    (liveCheckForAlerts t x rnd k).alertCount = t.alertCount + 1 := by
  rw [live_critical t x rnd k hx hgate]
  refine ⟨rfl, rfl, addAlert_head _ _ _ _, ?_, rfl⟩
  intro h
  exact addAlert_short _ _ _ _ h

/-- C23, instance: a score of 62 with every draw at 9/10, on a page without alerts. -/
theorem live_critical_alert_witness :
    (liveCheckForAlerts freshLiveState 62 (fun _ => 9 / 10) 0).alertList
      = [ChildNode.alert ⟨"Critical Bias Detected", criticalMessage 62, Level.high⟩] ∧
    (liveCheckForAlerts freshLiveState 62 (fun _ => 9 / 10) 0).alertCount
      = freshLiveState.alertCount + 1 :=
  ⟨(live_critical_alert freshLiveState 62 (fun _ => 9 / 10) 0 (by norm_num)
      (by norm_num)).2.2.2.1 (by simp [freshLiveState, childrenLength]),
   (live_critical_alert freshLiveState 62 (fun _ => 9 / 10) 0 (by norm_num)
      (by norm_num)).2.2.2.2⟩

/-! ## Theorems: the CRITICAL branch of analytics.js -/

/-- The functions `updateChart` and `updateStats` leave the alert text alone. -/
theorem chart_stats_summary (s : AnalyticsState) :
    (updateStats (updateChart s)).alertSummary = s.alertSummary := by
  unfold updateStats updateChart updateTrendLine
  dsimp only
  split_ifs <;> rfl

/-- When no retained value is below 60, `checkForAlerts` does not set the CRITICAL text. -/
theorem checkForAlerts_not_critical (s : AnalyticsState) (gate : ℚ)
    (hvals : ∀ p ∈ s.analyticsData, 60 ≤ p.value)
    (hold : s.alertSummary ≠ "⚠️ CRITICAL: Fairness score below 60%") :
    (checkForAlerts s gate).alertSummary ≠ "⚠️ CRITICAL: Fairness score below 60%" := by
  by_cases h5 : 5 ≤ s.analyticsData.length
  · cases hl : s.analyticsData.getLast? with
    | none =>
      rw [List.getLast?_eq_none_iff] at hl
      rw [hl] at h5
      simp at h5
    | some p =>
      have hp := hvals p (List.mem_of_getLast?_eq_some hl)
      rw [checkForAlerts_summary s gate p h5 hl, if_neg (not_lt.mpr hp)]
      split_ifs <;> decide
  · rw [checkForAlerts_few s gate (by omega)]
    exact hold

/-- The alert text after any event, when the buffer before holds no value below 60 and the
random draws are proper, is still not the CRITICAL text. -/
theorem apply_not_critical (s : AnalyticsState) (e : AnalyticsEvent) (he : e.unitRandom)
    (hvals : ∀ p ∈ s.analyticsData, 60 ≤ p.value ∧ p.value ≤ 100)
    (hold : s.alertSummary ≠ "⚠️ CRITICAL: Fairness score below 60%") :
    (e.apply s).alertSummary ≠ "⚠️ CRITICAL: Fairness score below 60%" := by
  have hnext := apply_range s e he hvals
  cases e with
  | tick tPush tCut rnd =>
    cases hp : s.isPaused with
    | true =>
      simp only [AnalyticsEvent.apply]
      rw [updateAnalyticsData_paused s tPush tCut rnd hp]
      exact hold
    | false =>
      simp only [AnalyticsEvent.apply] at hnext ⊢
      have hdata := updateAnalyticsData_data s tPush tCut rnd hp
      unfold updateAnalyticsData at hnext hdata ⊢
      simp only [hp, Bool.false_eq_true, if_false] at hnext hdata ⊢
      apply checkForAlerts_not_critical
      · intro p hmem
        rw [checkForAlerts_data] at hnext
        exact (hnext p hmem).1
      · rw [chart_stats_summary]
        exact hold
  | rangeClick range now =>
    simp only [AnalyticsEvent.apply, timeRangeClick, updateChartTimeRange]
    rw [chart_stats_summary]
    exact hold
  | pauseClick => exact hold
  | slider level =>
    simp only [AnalyticsEvent.apply, smoothingInput, updateTrendLine]
    split_ifs <;> exact hold

/-- Along a run with proper random draws, from a buffer without values below 60 and a text
other than the CRITICAL one, both properties persist. -/
theorem run_not_critical (evs : List AnalyticsEvent) :
    ∀ s : AnalyticsState, (∀ e ∈ evs, e.unitRandom) →
      (∀ p ∈ s.analyticsData, 60 ≤ p.value ∧ p.value ≤ 100) →
      s.alertSummary ≠ "⚠️ CRITICAL: Fairness score below 60%" →
      (runAnalytics s evs).alertSummary ≠ "⚠️ CRITICAL: Fairness score below 60%" := by
  induction evs with
  | nil =>
    intro s _ _ hold
    simpa [runAnalytics] using hold
  | cons e es ih =>
    intro s hevs hvals hold
    have he := hevs e (List.mem_cons_self _ _)
    have h := ih (e.apply s) (fun e' he' => hevs e' (List.mem_cons_of_mem _ he'))
      (apply_range s e he hvals) (apply_not_critical s e he hvals hold)
    simpa [runAnalytics] using h

/-- C24. In analytics.js the CRITICAL branch is unreachable: in every state reached from an
empty buffer (whose alert text is not already the CRITICAL one) by any sequence of ticks,
pause toggles, time-range changes and slider moves, with every `Math.random` result in
`[0, 1)`, every value in `analyticsData` is at least 60, so `currentValue < 60` does not hold
and the alert text is not, and is not set to, the CRITICAL one. -/
theorem critical_branch_unreachable (s : AnalyticsState) (evs : List AnalyticsEvent)
    (gate : ℚ) (hempty : s.analyticsData = [])
    (htext : s.alertSummary ≠ "⚠️ CRITICAL: Fairness score below 60%")
    (hevs : ∀ e ∈ evs, e.unitRandom) :
    (∀ p ∈ (runAnalytics s evs).analyticsData, 60 ≤ p.value) ∧
    (∀ p, (runAnalytics s evs).analyticsData.getLast? = some p → ¬ p.value < 60) ∧
    (runAnalytics s evs).alertSummary ≠ "⚠️ CRITICAL: Fairness score below 60%" ∧
    (checkForAlerts (runAnalytics s evs) gate).alertSummary
      ≠ "⚠️ CRITICAL: Fairness score below 60%" := by
  have hvals : ∀ p ∈ s.analyticsData, 60 ≤ p.value ∧ p.value ≤ 100 := by
    intro p hp
    rw [hempty] at hp
    exact absurd hp (List.not_mem_nil p)
  have hr := run_range evs s hevs hvals
  have ht := run_not_critical evs s hevs hvals htext
  refine ⟨fun p hp => (hr p hp).1, ?_, ht, ?_⟩
  · intro p hp
    exact not_lt.mpr (hr p (List.mem_of_getLast?_eq_some hp)).1
  · exact checkForAlerts_not_critical _ gate (fun p hp => (hr p hp).1) ht

/-- C24, instance: three ticks with dips (every draw 9/10), a pause toggle and a range change
from the initial state. -/
theorem critical_branch_unreachable_witness :
    (∀ p ∈ (runAnalytics AnalyticsState.initial
        [AnalyticsEvent.tick 0 0 (fun _ => 9 / 10), AnalyticsEvent.tick 2000 2000 (fun _ => 9 / 10),
          AnalyticsEvent.pauseClick, AnalyticsEvent.rangeClick 60 3000,
          AnalyticsEvent.tick 4000 4000 (fun _ => 9 / 10)]).analyticsData, 60 ≤ p.value) ∧
    (runAnalytics AnalyticsState.initial
        [AnalyticsEvent.tick 0 0 (fun _ => 9 / 10), AnalyticsEvent.tick 2000 2000 (fun _ => 9 / 10),
          AnalyticsEvent.pauseClick, AnalyticsEvent.rangeClick 60 3000,
          AnalyticsEvent.tick 4000 4000 (fun _ => 9 / 10)]).alertSummary
      ≠ "⚠️ CRITICAL: Fairness score below 60%" :=
  have h := critical_branch_unreachable AnalyticsState.initial
    [AnalyticsEvent.tick 0 0 (fun _ => 9 / 10), AnalyticsEvent.tick 2000 2000 (fun _ => 9 / 10),
      AnalyticsEvent.pauseClick, AnalyticsEvent.rangeClick 60 3000,
      AnalyticsEvent.tick 4000 4000 (fun _ => 9 / 10)]
    (1 / 2) rfl (by decide)
    (by simp [AnalyticsEvent.unitRandom, UnitRandom]; norm_num)
  ⟨h.1, h.2.2.1⟩

/-! ## Theorems: the extremes shown by the statistics -/

/-- The fold of `min` is below its start value and below every folded element. -/
theorem foldl_min_le (vs : List ℚ) :
    ∀ v : ℚ, vs.foldl min v ≤ v ∧ ∀ x ∈ vs, vs.foldl min v ≤ x := by
  induction vs with
  | nil =>
    intro v
    simp
  | cons a as ih =>
    intro v
    obtain ⟨h1, h2⟩ := ih (min v a)
    rw [List.foldl_cons]
    refine ⟨le_trans h1 (min_le_left _ _), ?_⟩
    intro x hx
    rw [List.mem_cons] at hx
    rcases hx with hx | hx
    · rw [hx]
      exact le_trans h1 (min_le_right _ _)
    · exact h2 x hx

/-- The fold of `max` is above its start value and above every folded element. -/
theorem le_foldl_max (vs : List ℚ) :
    ∀ v : ℚ, v ≤ vs.foldl max v ∧ ∀ x ∈ vs, x ≤ vs.foldl max v := by
  induction vs with
  | nil =>
    intro v
    simp
  | cons a as ih =>
    intro v
    obtain ⟨h1, h2⟩ := ih (max v a)
    rw [List.foldl_cons]
    refine ⟨le_trans (le_max_left _ _) h1, ?_⟩
    intro x hx
    rw [List.mem_cons] at hx
    rcases hx with hx | hx
    · rw [hx]
      exact le_trans (le_max_right _ _) h1
    · exact h2 x hx

/-- The minimum is below every element. -/
theorem minOf_le (values : List ℚ) (x : ℚ) (hx : x ∈ values) : minOf values ≤ x := by
  cases values with
  | nil => exact absurd hx (List.not_mem_nil x)
  | cons v vs =>
    unfold minOf
    rw [List.mem_cons] at hx
    rcases hx with hx | hx
    · rw [hx]
      exact (foldl_min_le vs v).1
    · exact (foldl_min_le vs v).2 x hx

/-- The maximum is above every element. -/
theorem le_maxOf (values : List ℚ) (x : ℚ) (hx : x ∈ values) : x ≤ maxOf values := by
  cases values with
  | nil => exact absurd hx (List.not_mem_nil x)
  | cons v vs =>
    unfold maxOf
    rw [List.mem_cons] at hx
    rcases hx with hx | hx
    · rw [hx]
      exact (le_foldl_max vs v).1
    · exact (le_foldl_max vs v).2 x hx

/-! ## Theorems: the score bands of app.js -/

/-- C26. For every score the three classifier functions select the same band (below 15, from
15 to below 30, from 30 to below 45, from 45 on), while the risk class `updateMetrics` gives
the 'Bias Score' card (high iff s > 30, medium iff 15 < s <= 30, else low) agrees with the
class it gives the `getRiskLevel` text of the same score for every score except exactly 15
and 30. -/
theorem score_bands (s : ℚ) :
    (s < 15 → getBiasStatus s = "Low Bias" ∧ getRiskLevel s = "Low" ∧
      getScoreColor s = "linear-gradient(135deg, #2ecc71, #27ae60)") ∧
    (15 ≤ s → s < 30 → getBiasStatus s = "Moderate Bias" ∧ getRiskLevel s = "Medium" ∧
      getScoreColor s = "linear-gradient(135deg, #f39c12, #d35400)") ∧
    (30 ≤ s → s < 45 → getBiasStatus s = "High Bias" ∧ getRiskLevel s = "High" ∧
      getScoreColor s = "linear-gradient(135deg, #e74c3c, #c0392b)") ∧
    (45 ≤ s → getBiasStatus s = "Critical Bias" ∧ getRiskLevel s = "Critical" ∧
      getScoreColor s = "linear-gradient(135deg, #8b0000, #ff0000)") ∧
    (riskClassOfBiasScore s = "risk-high" ↔ s > 30) ∧
    (riskClassOfBiasScore s = "risk-medium" ↔ 15 < s ∧ s ≤ 30) ∧
    (riskClassOfLevel "Low" = "risk-low" ∧ riskClassOfLevel "Medium" = "risk-medium" ∧
      riskClassOfLevel "High" = "risk-high" ∧ riskClassOfLevel "Critical" = "risk-high") ∧
    (riskClassOfBiasScore s = riskClassOfLevel (getRiskLevel s) ↔ s ≠ 15 ∧ s ≠ 30) := by
  have hlv : riskClassOfLevel "Low" = "risk-low" ∧ riskClassOfLevel "Medium" = "risk-medium" ∧
      riskClassOfLevel "High" = "risk-high" ∧ riskClassOfLevel "Critical" = "risk-high" := by
    refine ⟨?_, ?_, ?_, ?_⟩ <;> decide
  refine ⟨?_, ?_, ?_, ?_, ?_, ?_, hlv, ?_⟩
  · intro h
    simp [getBiasStatus, getRiskLevel, getScoreColor, h]
  · intro h1 h2
    simp [getBiasStatus, getRiskLevel, getScoreColor, not_lt.mpr h1, h2]
  · intro h1 h2
    have h15 : ¬ s < 15 := by intro h; linarith
    simp [getBiasStatus, getRiskLevel, getScoreColor, h15, not_lt.mpr h1, h2]
  · intro h1
    have h15 : ¬ s < 15 := by intro h; linarith
    have h30 : ¬ s < 30 := by intro h; linarith
    simp [getBiasStatus, getRiskLevel, getScoreColor, h15, h30, not_lt.mpr h1]
  · unfold riskClassOfBiasScore
    split_ifs with h1 h2
    · simp [h1]
    · constructor
      · intro h; exact absurd h (by decide)
      · intro h; exact absurd h h1
    · constructor
      · intro h; exact absurd h (by decide)
      · intro h; exact absurd h h1
  · unfold riskClassOfBiasScore
    split_ifs with h1 h2
    · constructor
      · intro h; exact absurd h (by decide)
      · intro h; linarith [h.2]
    · constructor
      · intro _; exact ⟨h2, not_lt.mp h1⟩
      · intro _; rfl
    · constructor
      · intro h; exact absurd h (by decide)
      · intro h; exact absurd h.1 h2
  · unfold riskClassOfBiasScore getRiskLevel
    by_cases c1 : s < 15
    · have a1 : ¬ s > 30 := by intro h; linarith
      have a2 : ¬ s > 15 := by intro h; linarith
      rw [if_neg a1, if_neg a2, if_pos c1, hlv.1]
      constructor
      · intro _; exact ⟨by intro h; linarith, by intro h; linarith⟩
      · intro _; rfl
    · rw [if_neg c1]
      by_cases c2 : s < 30
      · have a1 : ¬ s > 30 := by intro h; linarith
        rw [if_neg a1, if_pos c2, hlv.2.1]
        by_cases c3 : s > 15
        · rw [if_pos c3]
          constructor
          · intro _; exact ⟨by intro h; linarith, by intro h; linarith⟩
          · intro _; rfl
        · rw [if_neg c3]
          have e : s = 15 := le_antisymm (not_lt.mp c3) (not_lt.mp c1)
          constructor
          · intro h; exact absurd h (by decide)
          · intro h; exact absurd e h.1
      · rw [if_neg c2]
        have hr : riskClassOfLevel (if s < 45 then "High" else "Critical") = "risk-high" := by
          split_ifs
          · exact hlv.2.2.1
          · exact hlv.2.2.2
        rw [hr]
        by_cases c3 : s > 30
        · rw [if_pos c3]
          constructor
          · intro _; exact ⟨by intro h; linarith, by intro h; linarith⟩
          · intro _; rfl
        · rw [if_neg c3]
          have e : s = 30 := le_antisymm (not_lt.mp c3) (not_lt.mp c2)
          have c4 : s > 15 := by linarith
          rw [if_pos c4]
          constructor
          · intro h; exact absurd h (by decide)
          · intro h; exact absurd e h.2

/-! ## Theorems: the extremes written by `updateStats` -/

/-- The text of `toFixed` is the sign followed by the digits of the rounded scaled integer. -/
theorem toFixed_digits (x : ℚ) (f : Nat) :
    toFixed x f = (if x < 0 then "-" else "") ++ fixedDigits (roundedScaled x f) f := by
  unfold toFixed fixedDigits roundedScaled
  rw [String.append_assoc]

/-- The rounded scaled integer grows with the absolute value. -/
theorem roundedScaled_mono (x y : ℚ) (f : Nat) (h : |x| ≤ |y|) :
    roundedScaled x f ≤ roundedScaled y f := by
  unfold roundedScaled
  apply Int.toNat_le_toNat
  apply Int.floor_mono
  have hp : (0 : ℚ) ≤ (10 : ℚ) ^ f := by positivity
  nlinarith [mul_le_mul_of_nonneg_right h hp]

/-- The number written by `toFixed` grows with the value. -/
theorem fixedNumber_mono (x y : ℚ) (f : Nat) (h : x ≤ y) :
    fixedNumber x f ≤ fixedNumber y f := by
  have hp : (0 : ℚ) < (10 : ℚ) ^ f := by positivity
  have hx0 : (0 : ℚ) ≤ (roundedScaled x f : ℚ) / (10 : ℚ) ^ f := by positivity
  have hy0 : (0 : ℚ) ≤ (roundedScaled y f : ℚ) / (10 : ℚ) ^ f := by positivity
  unfold fixedNumber
  by_cases hx : x < 0
  · by_cases hy : y < 0
    · rw [if_pos hx, if_pos hy]
      have habs : |y| ≤ |x| := by
        rw [abs_of_neg hx, abs_of_neg hy]
        linarith
      have hm : (roundedScaled y f : ℚ) ≤ (roundedScaled x f : ℚ) := by
        exact_mod_cast roundedScaled_mono y x f habs
      have hd := div_le_div_of_nonneg_right hm (le_of_lt hp)
      linarith
    · rw [if_pos hx, if_neg hy]
      linarith
  · have hy : ¬ y < 0 := by
      intro hy
      exact hx (lt_of_le_of_lt h hy)
    rw [if_neg hx, if_neg hy]
    have habs : |x| ≤ |y| := by
      rw [abs_of_nonneg (not_lt.mp hx), abs_of_nonneg (not_lt.mp hy)]
      exact h
    have hm : (roundedScaled x f : ℚ) ≤ (roundedScaled y f : ℚ) := by
      exact_mod_cast roundedScaled_mono x y f habs
    have hd := div_le_div_of_nonneg_right hm (le_of_lt hp)
    linarith

/-- The two extreme texts written by `updateStats` on a non-empty buffer. -/
theorem updateStats_extremes (s : AnalyticsState) (hne : s.analyticsData ≠ []) :
    (updateStats s).stats.minBias
      = toFixed (100 - minOf (s.analyticsData.map (fun point => point.value))) 1 ∧
    (updateStats s).stats.maxBias
      = toFixed (100 - maxOf (s.analyticsData.map (fun point => point.value))) 1 := by
  have hlen : ¬ s.analyticsData.length = 0 := by
    intro h
    exact hne (List.length_eq_zero.mp h)
  unfold updateStats
  rw [if_neg hlen]
  exact ⟨rfl, rfl⟩

/-- The fold of `min` stays above a lower bound of its start value and elements. -/
theorem le_foldl_min (vs : List ℚ) (lo : ℚ) :
    ∀ v : ℚ, lo ≤ v → (∀ x ∈ vs, lo ≤ x) → lo ≤ vs.foldl min v := by
  induction vs with
  | nil =>
    intro v hv _
    simpa using hv
  | cons a as ih =>
    intro v hv h
    rw [List.foldl_cons]
    exact ih (min v a) (le_min hv (h a (List.mem_cons_self _ _)))
      (fun x hx => h x (List.mem_cons_of_mem _ hx))

/-- The fold of `max` stays below an upper bound of its start value and elements. -/
theorem foldl_max_le (vs : List ℚ) (hi : ℚ) :
    ∀ v : ℚ, v ≤ hi → (∀ x ∈ vs, x ≤ hi) → vs.foldl max v ≤ hi := by
  induction vs with
  | nil =>
    intro v hv _
    simpa using hv
  | cons a as ih =>
    intro v hv h
    rw [List.foldl_cons]
    exact ih (max v a) (max_le hv (h a (List.mem_cons_self _ _)))
      (fun x hx => h x (List.mem_cons_of_mem _ hx))

/-- When all values are equal the minimum and the maximum coincide. -/
theorem minOf_eq_maxOf (values : List ℚ) (h : ∀ x ∈ values, ∀ y ∈ values, x = y) :
    minOf values = maxOf values := by
  cases values with
  | nil => rfl
  | cons v vs =>
    have hv : ∀ x ∈ vs, x = v := fun x hx =>
      h x (List.mem_cons_of_mem _ hx) v (List.mem_cons_self _ _)
    have h1 : minOf (v :: vs) = v :=
      le_antisymm (minOf_le _ v (List.mem_cons_self _ _))
        (le_foldl_min vs v v (le_refl _) (fun x hx => by rw [hv x hx]))
    have h2 : maxOf (v :: vs) = v :=
      le_antisymm (foldl_max_le vs v v (le_refl _) (fun x hx => by rw [hv x hx]))
        (le_maxOf _ v (List.mem_cons_self _ _))
    rw [h1, h2]

/-- C27, as stated, fails: for the retained values 85 and 85.0078125, which are not equal,
`updateStats` writes the same number, `15.0`, to the 'minBias' and the 'maxBias' element. -/
theorem stats_texts_equal_for_unequal_values :
    nearlyEqualState.analyticsData.map (fun point => point.value) = [85, 10881 / 128] ∧
    (85 : ℚ) ≠ 10881 / 128 ∧
    (updateStats nearlyEqualState).stats.minBias = "15.0" ∧
    (updateStats nearlyEqualState).stats.maxBias = "15.0" := by
  have hne : nearlyEqualState.analyticsData ≠ [] := by simp [nearlyEqualState]
  have hvals : nearlyEqualState.analyticsData.map (fun point => point.value)
      = [85, 10881 / 128] := by
    simp [nearlyEqualState]
  have hmin : minOf ([85, 10881 / 128] : List ℚ) = 85 := by norm_num [minOf]
  have hmax : maxOf ([85, 10881 / 128] : List ℚ) = 10881 / 128 := by norm_num [maxOf]
  obtain ⟨h1, h2⟩ := updateStats_extremes nearlyEqualState hne
  rw [hvals] at h1 h2
  rw [hmin] at h1
  rw [hmax] at h2
  refine ⟨hvals, by norm_num, ?_, ?_⟩
  · rw [h1, toFixed_of_floor _ 1 150 (by norm_num) (by
      rw [Int.floor_eq_iff]
      constructor <;> norm_num [abs_of_nonneg])]
    decide
  · rw [h2, toFixed_of_floor _ 1 150 (by norm_num) (by
      rw [Int.floor_eq_iff]
      constructor <;> norm_num [abs_of_nonneg])]
    decide

/-- C27, amended. For every non-empty `analyticsData`, `updateStats` writes to the 'minBias'
element the one-decimal text of 100 - (minimum fairness value) and to the 'maxBias' element
that of 100 - (maximum fairness value); the number written to 'minBias' is greater than or
equal to the number written to 'maxBias', and the two texts are the same whenever all retained
values are equal. -/
theorem stats_extremes_written (s : AnalyticsState) (hne : s.analyticsData ≠ []) :
    (updateStats s).stats.minBias
      = toFixed (100 - minOf (s.analyticsData.map (fun point => point.value))) 1 ∧
    (updateStats s).stats.maxBias
      = toFixed (100 - maxOf (s.analyticsData.map (fun point => point.value))) 1 ∧
    fixedNumber (100 - maxOf (s.analyticsData.map (fun point => point.value))) 1
      ≤ fixedNumber (100 - minOf (s.analyticsData.map (fun point => point.value))) 1 ∧
    ((∀ p ∈ s.analyticsData, ∀ q ∈ s.analyticsData, p.value = q.value) →
      (updateStats s).stats.minBias = (updateStats s).stats.maxBias) := by
  obtain ⟨h1, h2⟩ := updateStats_extremes s hne
  have hvne : s.analyticsData.map (fun point => point.value) ≠ [] := by
    simpa using hne
  obtain ⟨v, hv⟩ := List.exists_mem_of_ne_nil _ hvne
  have hle : minOf (s.analyticsData.map (fun point => point.value))
      ≤ maxOf (s.analyticsData.map (fun point => point.value)) :=
    le_trans (minOf_le _ v hv) (le_maxOf _ v hv)
  refine ⟨h1, h2, fixedNumber_mono _ _ 1 (by linarith), ?_⟩
  intro hall
  have heq : minOf (s.analyticsData.map (fun point => point.value))
      = maxOf (s.analyticsData.map (fun point => point.value)) := by
    apply minOf_eq_maxOf
    intro x hx y hy
    obtain ⟨p, hp, rfl⟩ := List.mem_map.mp hx
    obtain ⟨q, hq, rfl⟩ := List.mem_map.mp hy
    exact hall p hp q hq
  rw [h1, h2, heq]

/-- C27 amended, instance: the two-sample state (values 85 and 86): 'minBias' shows the text
of 100 - 85 and 'maxBias' that of 100 - 86, the first number being the larger. -/
theorem stats_extremes_written_witness :
    (updateStats twoSampleState).stats.minBias
      = toFixed (100 - minOf (twoSampleState.analyticsData.map (fun point => point.value))) 1 ∧
    (updateStats twoSampleState).stats.maxBias
      = toFixed (100 - maxOf (twoSampleState.analyticsData.map (fun point => point.value))) 1 ∧
    fixedNumber (100 - maxOf (twoSampleState.analyticsData.map (fun point => point.value))) 1
      ≤ fixedNumber
          (100 - minOf (twoSampleState.analyticsData.map (fun point => point.value))) 1 ∧
    minOf (twoSampleState.analyticsData.map (fun point => point.value)) = 85 ∧
    maxOf (twoSampleState.analyticsData.map (fun point => point.value)) = 86 :=
  ⟨(stats_extremes_written twoSampleState (by simp [twoSampleState])).1,
   (stats_extremes_written twoSampleState (by simp [twoSampleState])).2.1,
   (stats_extremes_written twoSampleState (by simp [twoSampleState])).2.2.1,
   by norm_num [twoSampleState, minOf], by norm_num [twoSampleState, maxOf]⟩

end BiasMeter
